import Mathlib

/-!
# libcouchbase: node connection engine and HTTP topology provider

A shallow embedding of `src/mcserver/mcserver.cc` (the per-node memcached
channel) and of `src/bucketconfig/bc_http.cc` (the HTTP configuration
provider), followed by theorems about them.

Conventions of the embedding.

* A C function that mutates `this` and calls into collaborators becomes a pure
  function returning the new state together with the list of collaborator
  calls it made, in program order (`Action`).
* Results of collaborators that are not part of the two source files
  (`lcb_should_retry`, `cccp_update`, the error map, the HTTP parser, the JSON
  deserializer) are read from an environment record.
* Bytes are natural numbers below 256, buffers are lists of bytes.
-/

namespace lcb

/-- Modelled from the spec: the `lcb_error_t` enumeration of `error.h` (not in
the two source files), restricted to the enumerators the sources name.
`LCB_SUCCESS` is the zero value, so `newerr ? a : b` tests `newerr ≠ LCB_SUCCESS`. -/
inductive lcb_error_t
  | LCB_SUCCESS
  | LCB_AUTH_ERROR
  | LCB_EINTERNAL
  | LCB_EINVAL
  | LCB_ERROR
  | LCB_NOT_MY_VBUCKET
  | LCB_PROTOCOL_ERROR
  | LCB_ETIMEDOUT
  | LCB_CONNECT_ERROR
  | LCB_BUCKET_ENOENT
  | LCB_CLIENT_ENOMEM
  | LCB_MAP_CHANGED
  | LCB_GENERIC_TMPERR
  | LCB_GENERIC_SUBDOCERR
  | LCB_GENERIC_CONSTRAINT_ERR
  deriving DecidableEq

/-- Modelled from the spec: `lcb::clconfig::Method`, the origin of a
configuration (`clconfig.h`, not in the two source files). -/
inductive Method
  | CLCONFIG_FILE
  | CLCONFIG_CCCP
  | CLCONFIG_HTTP
  | CLCONFIG_USER
  | CLCONFIG_MCRAW
  deriving DecidableEq

/-- Modelled from the spec: `lcbvb_DISTMODE`, the distribution mode of the
cluster map (`vbucket.h`, not in the two source files). -/
inductive lcbvb_DISTMODE
  | LCBVB_DIST_VBUCKET
  | LCBVB_DIST_KETAMA
  deriving DecidableEq

end lcb

namespace mcserver

open lcb lcb.lcb_error_t

/-! ## Constants of the wire protocol and of the request pool

The opcode and status values are those of the memcached binary protocol
(`memcached/protocol_binary.h`, not in the two source files). -/

def PROTOCOL_BINARY_CMD_STAT : Nat := 0x10

def PROTOCOL_BINARY_RESPONSE_SUCCESS : Nat := 0x00
def PROTOCOL_BINARY_RESPONSE_KEY_ENOENT : Nat := 0x01
def PROTOCOL_BINARY_RESPONSE_KEY_EEXISTS : Nat := 0x02
def PROTOCOL_BINARY_RESPONSE_E2BIG : Nat := 0x03
def PROTOCOL_BINARY_RESPONSE_EINVAL : Nat := 0x04
def PROTOCOL_BINARY_RESPONSE_NOT_STORED : Nat := 0x05
def PROTOCOL_BINARY_RESPONSE_DELTA_BADVAL : Nat := 0x06
def PROTOCOL_BINARY_RESPONSE_NOT_MY_VBUCKET : Nat := 0x07
def PROTOCOL_BINARY_RESPONSE_ERANGE : Nat := 0x22
def PROTOCOL_BINARY_RESPONSE_EACCESS : Nat := 0x24
def PROTOCOL_BINARY_RESPONSE_UNKNOWN_COMMAND : Nat := 0x81
def PROTOCOL_BINARY_RESPONSE_ENOMEM : Nat := 0x82
def PROTOCOL_BINARY_RESPONSE_NOT_SUPPORTED : Nat := 0x83
def PROTOCOL_BINARY_RESPONSE_ETMPFAIL : Nat := 0x86
def PROTOCOL_BINARY_RESPONSE_SUBDOC_PATH_ENOENT : Nat := 0xc0
def PROTOCOL_BINARY_RESPONSE_SUBDOC_PATH_MISMATCH : Nat := 0xc1
def PROTOCOL_BINARY_RESPONSE_SUBDOC_PATH_EINVAL : Nat := 0xc2
def PROTOCOL_BINARY_RESPONSE_SUBDOC_PATH_E2BIG : Nat := 0xc3
def PROTOCOL_BINARY_RESPONSE_SUBDOC_VALUE_CANTINSERT : Nat := 0xc5
def PROTOCOL_BINARY_RESPONSE_SUBDOC_DOC_NOTJSON : Nat := 0xc6
def PROTOCOL_BINARY_RESPONSE_SUBDOC_NUM_ERANGE : Nat := 0xc7
def PROTOCOL_BINARY_RESPONSE_SUBDOC_DELTA_ERANGE : Nat := 0xc8
def PROTOCOL_BINARY_RESPONSE_SUBDOC_PATH_EEXISTS : Nat := 0xc9
def PROTOCOL_BINARY_RESPONSE_SUBDOC_VALUE_ETOODEEP : Nat := 0xca
def PROTOCOL_BINARY_RESPONSE_SUBDOC_INVALID_COMBO : Nat := 0xcb
def PROTOCOL_BINARY_RESPONSE_SUBDOC_MULTI_PATH_FAILURE : Nat := 0xcc

/-- Modelled from the spec: request flag "marked for raw forwarding"
(`mcreq.h`, not in the two source files). -/
def MCREQ_F_UFWD : Nat := 0x20

/-- Modelled from the spec: request flag "entirely flushed" (`mcreq.h`). -/
def MCREQ_F_FLUSHED : Nat := 0x40

/-- Modelled from the spec: request flag "callback already invoked" (`mcreq.h`). -/
def MCREQ_F_INVOKED : Nat := 0x80

/-- Modelled from the spec: the "state flags" of a request, the ones a renewed
packet gets cleared (`mcreq.h`). -/
def MCREQ_STATE_FLAGS : Nat := MCREQ_F_INVOKED ||| MCREQ_F_FLUSHED

/-- Modelled from the spec: bootstrap option "always fetch, no throttling"
(`bootstrap.h`, not in the two source files). -/
def BS_REFRESH_ALWAYS : Nat := 0x00

/-- Modelled from the spec: bootstrap option "count this as an error"
(`bootstrap.h`). -/
def BS_REFRESH_INCRERR : Nat := 0x04

/-- Modelled from the spec: bootstrap option "subject to throttling"
(`bootstrap.h`). -/
def BS_REFRESH_THROTTLE : Nat := 0x08

def ERRMAP_HANDLE_CONTINUE : Nat := 0
def ERRMAP_HANDLE_DISCONN : Nat := 1
def ERRMAP_HANDLE_RETRY : Nat := 2

/-! ## Data model -/

/-- Modelled from the spec: `mc_PACKET`, a pending request: correlation id
(the C field is named after the protocol's "opaque" field), flag word, and the
opcode and vbucket of its header, the enqueue time and the user cookie. -/
structure mc_PACKET where
  opaq : Nat
  flags : Nat
  opcode : Nat
  vbucket : Nat
  start : Nat
  cookie : Nat
  deriving DecidableEq

/-- Modelled from the spec: `MemcachedResponse`, the decoded 24-byte header
(fields already in host order) plus the body view assigned by
`DO_ASSIGN_PAYLOAD` and the buffer handle `bufh`. -/
structure MemcachedResponse where
  magic : Nat
  opcode : Nat
  keylen : Nat
  extlen : Nat
  datatype : Nat
  status : Nat
  bodylen : Nat
  opaq : Nat
  cas : Nat
  payload : List Nat
  bufh : Bool
  deriving DecidableEq

/-- Big-endian value of a run of bytes. -/
def be_value (bytes : List Nat) : Nat :=
  bytes.foldl (fun acc b => acc * 256 + b % 256) 0

/-- Modelled from the spec: `rdb_copyread(ior, mcresp.hdrbytes(), 24)` followed
by the header accessors: magic, opcode, key length (2), extras length,
datatype, status (2), total body length (4), correlation id (4), CAS (8). -/
def MemcachedResponse.read (ior : List Nat) : MemcachedResponse :=
  { magic := be_value ((ior.drop 0).take 1)
    opcode := be_value ((ior.drop 1).take 1)
    keylen := be_value ((ior.drop 2).take 2)
    extlen := be_value ((ior.drop 4).take 1)
    datatype := be_value ((ior.drop 5).take 1)
    status := be_value ((ior.drop 6).take 2)
    bodylen := be_value ((ior.drop 8).take 4)
    opaq := be_value ((ior.drop 12).take 4)
    cas := be_value ((ior.drop 16).take 8)
    payload := []
    bufh := false }

/-- The `hdrsize()` accessor: the header is 24 bytes. -/
def MemcachedResponse.hdrsize (_r : MemcachedResponse) : Nat := 24

/-- Modelled from the spec: the value part of the body, `body()` for
`vallen()` bytes: the payload after extras and key. -/
def MemcachedResponse.value (r : MemcachedResponse) : List Nat :=
  (r.payload.drop (r.extlen + r.keylen)).take (r.bodylen - r.keylen - r.extlen)

/-- Modelled from the spec: `errmap::ErrorAttribute` (`errmap.h`, not in the
two source files), the attributes the sources test. -/
inductive ErrorAttribute
  | TEMPORARY
  | SUBDOC
  | AUTH
  | CONN_STATE_INVALIDATED
  | CONSTRAINT_FAILURE
  | FETCH_CONFIG
  | SPECIAL_HANDLING
  | AUTO_RETRY
  deriving DecidableEq

/-- Modelled from the spec: `errmap::Error`, an entry of the error map:
validity, attribute set and retry specification. -/
structure Error where
  valid : Bool
  attributes : List ErrorAttribute
  retry : Nat
  deriving DecidableEq

def Error.isValid (e : Error) : Bool := e.valid

def Error.hasAttribute (e : Error) (a : ErrorAttribute) : Bool :=
  decide (a ∈ e.attributes)

def Error.getRetrySpec (e : Error) : Nat := e.retry

/-- The channel states of `Server::State`. -/
inductive State
  | S_CLEAN
  | S_ERRDRAIN
  | S_CLOSED
  | S_TEMPORARY
  deriving DecidableEq

/-- The result of one `try_read` step. -/
inductive ReadState
  | PKT_READ_COMPLETE
  | PKT_READ_PARTIAL
  | PKT_READ_ABORT
  deriving DecidableEq

/-- Modelled from the spec: `lcbio_CTX`, the byte-stream context of a connected
channel, as far as the channel reads it: the number of I/O operations still in
flight. -/
structure lcbio_CTX where
  npending : Nat
  deriving DecidableEq

/-- The functions the `flush_start` pointer of the pipeline is set to. -/
inductive FlushStart
  | server_connect
  | flush_noop
  | mcserver_flush
  | flush_errdrain
  deriving DecidableEq

/-- The `RefreshPolicy` argument of `Server::purge`. -/
inductive RefreshPolicy
  | REFRESH_ALWAYS
  | REFRESH_ONFAILED
  | REFRESH_NEVER
  deriving DecidableEq

/-- The channel object: state, pending requests (the pipeline), server index,
the transport handle `connctx`, whether a connection request is outstanding,
the timeout timer (`none` when destroyed, `some none` when disarmed,
`some (some d)` when armed with delay `d`), the `flush_start` pointer, the
sizes of the buffer spans not yet flushed, and whether the object was deleted. -/
structure Server where
  state : State
  requests : List mc_PACKET
  index : Nat
  connctx : Option lcbio_CTX := none
  connreq : Bool := false
  io_timer : Option (Option Nat) := some none
  flush_start : FlushStart := FlushStart.server_connect
  unflushed : List Nat := []
  deleted : Bool := false
  deriving DecidableEq

/-- Results of the collaborators and settings the channel reads. -/
structure Env where
  cccp_enabled : Bool
  cccp_update : List Nat → lcb_error_t
  cur_origin : Method
  distmode : lcbvb_DISTMODE
  lcb_should_retry : mc_PACKET → lcb_error_t → Bool
  mcreq_renew_packet : mc_PACKET → mc_PACKET
  errmap_isLoaded : Bool
  use_errmap : Bool
  errmap_getError : Nat → Error
  error_for : mc_PACKET → lcb_error_t
  default_timeout : Nat
  readj_ts_wait : Bool

/-- Calls into collaborators, in program order. The forwarding callback
`pktfwd` is recorded with the request whose cookie it receives. -/
inductive Action
  | lcbio_ctx_rwant (n : Nat)
  | lcb_vbguess_remap (vbid : Nat) (index : Nat)
  | cccp_update (body : List Nat)
  | bootstrap (options : Nat)
  | nmvadd (pkt : mc_PACKET)
  | retryq_add (pkt : mc_PACKET) (err : lcb_error_t) (spec : Option Nat)
  | lcbio_ctx_senderr (err : lcb_error_t)
  | mcreq_dispatch_response (pkt : mc_PACKET) (resp : MemcachedResponse) (err : lcb_error_t)
  | pktfwd (request : mc_PACKET) (err : lcb_error_t) (header : MemcachedResponse) (buf : List Nat)
  | mcreq_packet_handled (pkt : mc_PACKET)
  | sockpool_get
  | connreq_cancel
  | lcbio_timer_rearm (usec : Nat)
  | lcbio_timer_destroy
  | lcbio_ctx_schedule
  | lcbio_shutdown
  | lcbio_ctx_close
  | mcreq_flush_done (nflushed : Nat) (expected : Nat)
  | mcreq_flush_done_ex (nflushed : Nat) (expected : Nat) (now : Nat)
  | lcb_maybe_breakout
  deriving DecidableEq

/-! ## Pipeline helpers -/

/-- The `has_pending()` accessor: the pipeline holds at least one request. -/
def Server.has_pending (s : Server) : Bool := !s.requests.isEmpty

/-- Modelled from the spec: `mcreq_pipeline_find` (`mcreq.c`, not in the two
source files): "the pending entry is looked up but not removed": the first
request with that correlation id. -/
def mcreq_pipeline_find : List mc_PACKET → Nat → Option mc_PACKET
  | [], _ => none
  | p :: rest, seq => if p.opaq = seq then some p else mcreq_pipeline_find rest seq

/-- Modelled from the spec: `mcreq_pipeline_remove` (`mcreq.c`): the first
request with that correlation id is unlinked from the pipeline and returned. -/
def mcreq_pipeline_remove : List mc_PACKET → Nat → Option mc_PACKET × List mc_PACKET
  | [], _ => (none, [])
  | p :: rest, seq =>
    if p.opaq = seq then (some p, rest)
    else ((mcreq_pipeline_remove rest seq).1, p :: (mcreq_pipeline_remove rest seq).2)

/-- The statement `newpkt->flags &= ~MCREQ_STATE_FLAGS` on a 16-bit flag word. -/
def clear_state_flags (pkt : mc_PACKET) : mc_PACKET :=
  { pkt with flags := pkt.flags &&& (0xFFFF ^^^ MCREQ_STATE_FLAGS) }

/-! ## `mcserver.cc` -/

/-- `Server::handle_nmv`: returns whether the request was rescheduled, and the
calls made. -/
def handle_nmv (env : Env) (srv : Server) (resinfo : MemcachedResponse)
    (oldpkt : mc_PACKET) : Bool × List Action :=
  let vbid := oldpkt.vbucket
  let a1 := [Action.lcb_vbguess_remap vbid srv.index]
  let upd : lcb_error_t × List Action :=
    if resinfo.bodylen ≠ 0 ∧ env.cccp_enabled = true then
      (env.cccp_update resinfo.value, [Action.cccp_update resinfo.value])
    else (LCB_ERROR, [])
  let err := upd.1
  let a2 := upd.2
  let a3 :=
    if err ≠ LCB_SUCCESS then
      let bs_options :=
        if env.cur_origin = Method.CLCONFIG_CCCP then BS_REFRESH_THROTTLE
        else BS_REFRESH_ALWAYS
      [Action.bootstrap bs_options]
    else []
  if env.lcb_should_retry oldpkt LCB_NOT_MY_VBUCKET = false then
    (false, a1 ++ a2 ++ a3)
  else
    let newpkt := clear_state_flags (env.mcreq_renew_packet oldpkt)
    (true, a1 ++ a2 ++ a3 ++ [Action.nmvadd newpkt])

/-- `is_fastpath_error`: statuses passed to the user as they are. -/
def is_fastpath_error (rc : Nat) : Bool :=
  if rc = PROTOCOL_BINARY_RESPONSE_SUCCESS
      ∨ rc = PROTOCOL_BINARY_RESPONSE_KEY_ENOENT
      ∨ rc = PROTOCOL_BINARY_RESPONSE_KEY_EEXISTS
      ∨ rc = PROTOCOL_BINARY_RESPONSE_E2BIG
      ∨ rc = PROTOCOL_BINARY_RESPONSE_NOT_STORED
      ∨ rc = PROTOCOL_BINARY_RESPONSE_DELTA_BADVAL
      ∨ rc = PROTOCOL_BINARY_RESPONSE_ERANGE
      ∨ rc = PROTOCOL_BINARY_RESPONSE_NOT_SUPPORTED
      ∨ rc = PROTOCOL_BINARY_RESPONSE_UNKNOWN_COMMAND
      ∨ rc = PROTOCOL_BINARY_RESPONSE_ETMPFAIL
      ∨ rc = PROTOCOL_BINARY_RESPONSE_ENOMEM
      ∨ rc = PROTOCOL_BINARY_RESPONSE_SUBDOC_PATH_ENOENT
      ∨ rc = PROTOCOL_BINARY_RESPONSE_SUBDOC_PATH_EEXISTS
      ∨ rc = PROTOCOL_BINARY_RESPONSE_SUBDOC_PATH_MISMATCH
      ∨ rc = PROTOCOL_BINARY_RESPONSE_SUBDOC_PATH_EINVAL
      ∨ rc = PROTOCOL_BINARY_RESPONSE_SUBDOC_PATH_E2BIG
      ∨ rc = PROTOCOL_BINARY_RESPONSE_SUBDOC_VALUE_CANTINSERT
      ∨ rc = PROTOCOL_BINARY_RESPONSE_SUBDOC_VALUE_ETOODEEP
      ∨ rc = PROTOCOL_BINARY_RESPONSE_SUBDOC_DOC_NOTJSON
      ∨ rc = PROTOCOL_BINARY_RESPONSE_SUBDOC_NUM_ERANGE
      ∨ rc = PROTOCOL_BINARY_RESPONSE_SUBDOC_DELTA_ERANGE
      ∨ rc = PROTOCOL_BINARY_RESPONSE_SUBDOC_INVALID_COMBO
      ∨ rc = PROTOCOL_BINARY_RESPONSE_SUBDOC_MULTI_PATH_FAILURE
      ∨ rc = PROTOCOL_BINARY_RESPONSE_EACCESS then true
  else if rc ≥ 0xc0 ∧ rc ≤ 0xcc then true
  else false

/-- Lines 248-262 of `Server::handle_unknown_error`: the user-visible code
chosen from the temporary, constraint, auth and subdoc attributes, starting
from the incoming value of `newerr`. -/
def mapped_error (err : Error) (newerr : lcb_error_t) : lcb_error_t :=
  let n1 := if err.hasAttribute ErrorAttribute.TEMPORARY then LCB_GENERIC_TMPERR else newerr
  let n2 := if err.hasAttribute ErrorAttribute.CONSTRAINT_FAILURE then LCB_GENERIC_CONSTRAINT_ERR else n1
  let n3 := if err.hasAttribute ErrorAttribute.AUTH then LCB_AUTH_ERROR else n2
  if err.hasAttribute ErrorAttribute.SUBDOC = true ∧ n3 = LCB_SUCCESS then LCB_GENERIC_SUBDOCERR
  else n3

/-- What `Server::handle_unknown_error` yields: the return value, the final
value of the out-parameter `newerr`, and the calls made. -/
structure UnknownErrorResult where
  rv : Nat
  newerr : lcb_error_t
  effects : List Action
  deriving DecidableEq

/-- `Server::handle_unknown_error`. -/
def handle_unknown_error (env : Env) (request : mc_PACKET) (mcresp : MemcachedResponse)
    (newerr : lcb_error_t) : UnknownErrorResult :=
  if env.errmap_isLoaded = false ∨ env.use_errmap = false then
    ⟨ERRMAP_HANDLE_CONTINUE, newerr, []⟩
  else
    let err := env.errmap_getError mcresp.status
    if err.isValid = false ∨ err.hasAttribute ErrorAttribute.SPECIAL_HANDLING = true then
      ⟨ERRMAP_HANDLE_DISCONN, newerr, [Action.lcbio_ctx_senderr LCB_PROTOCOL_ERROR]⟩
    else
      let a1 :=
        if err.hasAttribute ErrorAttribute.FETCH_CONFIG then [Action.bootstrap BS_REFRESH_THROTTLE]
        else []
      let newerr := mapped_error err newerr
      let rv := 0
      let retry : Nat × List Action :=
        if err.hasAttribute ErrorAttribute.AUTO_RETRY then
          let spec := err.getRetrySpec
          let newpkt := clear_state_flags (env.mcreq_renew_packet request)
          (rv ||| ERRMAP_HANDLE_RETRY,
            [Action.retryq_add newpkt (if newerr ≠ LCB_SUCCESS then newerr else LCB_ERROR)
              (some spec)])
        else (rv, [])
      let rv := retry.1
      let a2 := retry.2
      if err.hasAttribute ErrorAttribute.CONN_STATE_INVALIDATED then
        let newerr := if newerr ≠ LCB_SUCCESS then LCB_ERROR else newerr
        ⟨rv ||| ERRMAP_HANDLE_DISCONN, newerr, a1 ++ a2 ++ [Action.lcbio_ctx_senderr newerr]⟩
      else
        ⟨rv, newerr, a1 ++ a2⟩

/-- What one `Server::try_read` step yields: the read state, the channel, the
receive buffer and the calls made. -/
structure ReadResult where
  rdstate : ReadState
  server : Server
  ior : List Nat
  effects : List Action
  deriving DecidableEq

/-- The `RETURN_NEED_MORE(n)` exit of `try_read`. -/
def RETURN_NEED_MORE (srv : Server) (ior : List Nat) (n : Nat) : ReadResult :=
  ⟨ReadState.PKT_READ_PARTIAL, srv, ior,
    if srv.has_pending then [Action.lcbio_ctx_rwant n] else []⟩

/-- `DO_ASSIGN_PAYLOAD`: consume the header, and view the body when there is one. -/
def DO_ASSIGN_PAYLOAD (ior : List Nat) (mcresp : MemcachedResponse) :
    List Nat × MemcachedResponse :=
  let ior1 := ior.drop mcresp.hdrsize
  (ior1, if mcresp.bodylen ≠ 0 then { mcresp with payload := ior1.take mcresp.bodylen } else mcresp)

/-- `DO_SWALLOW_PAYLOAD`: consume the body when there is one. -/
def DO_SWALLOW_PAYLOAD (ior : List Nat) (mcresp : MemcachedResponse) : List Nat :=
  if mcresp.bodylen ≠ 0 then ior.drop mcresp.bodylen else ior

/-- The `GT_DONE` exit of `try_read`. -/
def GT_DONE (is_last : Bool) (request : mc_PACKET) : List Action :=
  if is_last then [Action.mcreq_packet_handled request] else []

/-- The part of `Server::try_read` after the request was found: status
classification, delivery, and the `GT_DONE` exit. `pktsize` is the value the
`unsigned` variable holds after `pktsize += mcresp.bodylen()`. -/
def try_read_found (env : Env) (srv1 : Server) (ior : List Nat) (mcresp : MemcachedResponse)
    (is_last : Bool) (request : mc_PACKET) : ReadResult :=
  let pktsize := (24 + mcresp.bodylen) % 2 ^ 32
  let err_override := LCB_SUCCESS
  if is_fastpath_error mcresp.status = false
      ∧ mcresp.status = PROTOCOL_BINARY_RESPONSE_NOT_MY_VBUCKET then
    let p := DO_ASSIGN_PAYLOAD ior mcresp
    let nmv := handle_nmv env srv1 p.2 request
    let a := if nmv.1 = false then
        nmv.2 ++ [Action.mcreq_dispatch_response request p.2 LCB_NOT_MY_VBUCKET]
      else nmv.2
    ⟨ReadState.PKT_READ_COMPLETE, srv1, DO_SWALLOW_PAYLOAD p.1 p.2,
      a ++ GT_DONE is_last request⟩
  else
    let unk : UnknownErrorResult :=
      if is_fastpath_error mcresp.status = true then
        ⟨ERRMAP_HANDLE_CONTINUE, err_override, []⟩
      else handle_unknown_error env request mcresp err_override
    if is_fastpath_error mcresp.status = false ∧ unk.rv ≠ ERRMAP_HANDLE_CONTINUE then
      let p := DO_ASSIGN_PAYLOAD ior mcresp
      let a := if unk.rv &&& ERRMAP_HANDLE_RETRY = 0 then
          unk.effects ++ [Action.mcreq_dispatch_response request p.2 unk.newerr]
        else unk.effects
      let rdstate := if unk.rv &&& ERRMAP_HANDLE_DISCONN ≠ 0 then ReadState.PKT_READ_ABORT
        else ReadState.PKT_READ_COMPLETE
      ⟨rdstate, srv1, DO_SWALLOW_PAYLOAD p.1 p.2, a ++ GT_DONE is_last request⟩
    else
      let err_override := unk.newerr
      if request.flags &&& MCREQ_F_UFWD = 0 then
        let p := DO_ASSIGN_PAYLOAD ior mcresp
        let mcresp1 := { p.2 with bufh := true }
        ⟨ReadState.PKT_READ_COMPLETE, srv1, DO_SWALLOW_PAYLOAD p.1 mcresp1,
          unk.effects ++ [Action.mcreq_dispatch_response request mcresp1 err_override]
            ++ GT_DONE is_last request⟩
      else
        ⟨ReadState.PKT_READ_COMPLETE, srv1, ior.drop pktsize,
          unk.effects ++ [Action.pktfwd request LCB_SUCCESS mcresp (ior.take pktsize)]
            ++ GT_DONE is_last request⟩

/-- `Server::try_read`: process one frame of the receive buffer. `pktsize` is
an `unsigned`: the sum `pktsize += mcresp.bodylen()` is taken modulo 2^32. The
buffer is the list of the bytes `rdb_get_nused` counts. -/
def try_read (env : Env) (srv : Server) (ior : List Nat) : ReadResult :=
  let pktsize := 24
  if ior.length < pktsize then RETURN_NEED_MORE srv ior pktsize
  else
    let mcresp := MemcachedResponse.read ior
    let pktsize := (pktsize + mcresp.bodylen) % 2 ^ 32
    if ior.length < pktsize then RETURN_NEED_MORE srv ior pktsize
    else if mcresp.opcode = PROTOCOL_BINARY_CMD_STAT ∧ mcresp.keylen ≠ 0 then
      match mcreq_pipeline_find srv.requests mcresp.opaq with
      | none => ⟨ReadState.PKT_READ_COMPLETE, srv, ior.drop pktsize, []⟩
      | some request => try_read_found env srv ior mcresp false request
    else
      let removed := mcreq_pipeline_remove srv.requests mcresp.opaq
      let srv1 : Server := { srv with requests := removed.2 }
      match removed.1 with
      | none => ⟨ReadState.PKT_READ_COMPLETE, srv1, ior.drop pktsize, []⟩
      | some request => try_read_found env srv1 ior mcresp true request

/-! ## Failing requests, timeouts and the draining state machine -/

/-- `Server::maybe_retry_packet`: whether the request was handed to the retry
queue, and the call made. -/
def maybe_retry_packet (env : Env) (pkt : mc_PACKET) (err : lcb_error_t) : Bool × List Action :=
  if env.distmode ≠ lcbvb_DISTMODE.LCBVB_DIST_VBUCKET then (false, [])
  else if env.lcb_should_retry pkt err = false then (false, [])
  else (true, [Action.retryq_add (clear_state_flags (env.mcreq_renew_packet pkt)) err none])

/-- The response `purge_single` builds from the header of the request: its
opcode and correlation id, status `EINVAL`, nothing else. -/
def failure_response (pkt : mc_PACKET) : MemcachedResponse :=
  { magic := 0
    opcode := pkt.opcode
    keylen := 0
    extlen := 0
    datatype := 0
    status := PROTOCOL_BINARY_RESPONSE_EINVAL
    bodylen := 0
    opaq := pkt.opaq
    cas := 0
    payload := []
    bufh := false }

/-- `Server::purge_single` (reached through `fail_callback`). -/
def purge_single (env : Env) (pkt : mc_PACKET) (err : lcb_error_t) : List Action :=
  let r := maybe_retry_packet env pkt err
  if r.1 = true then r.2
  else
    let err1 := if err = LCB_AUTH_ERROR then LCB_MAP_CHANGED else err
    let err2 :=
      if err1 = LCB_ETIMEDOUT then
        (if env.error_for pkt ≠ LCB_SUCCESS then env.error_for pkt else err1)
      else err1
    r.2 ++ [Action.mcreq_dispatch_response pkt (failure_response pkt) err2]

/-- Modelled from the spec: `mcreq_pipeline_timeout` (`mcreq.c`, not in the two
source files) with `fail_callback` as callback: "purge all pending requests
older than the threshold, delivering the error to each": from the front of the
pipeline, each request that is not younger than `oldest_valid` (every request
when `oldest_valid` is 0) is unlinked, failed through `purge_single` and marked
handled. Yields the count, the requests left and the calls made. -/
def mcreq_pipeline_timeout (env : Env) (err : lcb_error_t) (oldest_valid : Nat) :
    List mc_PACKET → Nat × List mc_PACKET × List Action
  | [] => (0, [], [])
  | p :: rest =>
    if oldest_valid ≠ 0 ∧ p.start > oldest_valid then (0, p :: rest, [])
    else
      ((mcreq_pipeline_timeout env err oldest_valid rest).1 + 1,
        (mcreq_pipeline_timeout env err oldest_valid rest).2.1,
        purge_single env p err ++ [Action.mcreq_packet_handled p]
          ++ (mcreq_pipeline_timeout env err oldest_valid rest).2.2)

/-- Modelled from the spec: `mcreq_pipeline_fail` (`mcreq.c`): "purge all
pending requests with the triggering error": the same without a threshold. -/
def mcreq_pipeline_fail (env : Env) (err : lcb_error_t) (requests : List mc_PACKET) :
    Nat × List mc_PACKET × List Action :=
  mcreq_pipeline_timeout env err 0 requests

/-- `Server::purge`: the number of requests affected (the unsigned value, -1
being 2^32 - 1), the channel and the calls made. The out-parameter `next` is
not modelled. -/
def purge (env : Env) (srv : Server) (error : lcb_error_t) (thresh : Nat)
    (policy : RefreshPolicy) : Nat × Server × List Action :=
  let r : Nat × List mc_PACKET × List Action :=
    if thresh ≠ 0 then mcreq_pipeline_timeout env error thresh srv.requests
    else (2 ^ 32 - 1, (mcreq_pipeline_fail env error srv.requests).2)
  let affected := r.1
  let srv1 : Server := { srv with requests := r.2.1 }
  if policy = RefreshPolicy.REFRESH_NEVER then (affected, srv1, r.2.2)
  else if affected ≠ 0 ∨ policy = RefreshPolicy.REFRESH_ALWAYS then
    (affected, srv1, r.2.2 ++ [Action.bootstrap (BS_REFRESH_THROTTLE ||| BS_REFRESH_INCRERR)])
  else (affected, srv1, r.2.2)

/-- Modelled from the spec: `lcbio_timer_armed` ("query armed-state"). -/
def lcbio_timer_armed (t : Option (Option Nat)) : Bool :=
  match t with
  | some (some _) => true
  | _ => false

/-- Modelled from the spec: `lcbio_timer_rearm` ("arm with duration"); a
destroyed timer stays destroyed. -/
def lcbio_timer_rearm (t : Option (Option Nat)) (usec : Nat) : Option (Option Nat) :=
  match t with
  | none => none
  | some _ => some (some usec)

/-- Modelled from the spec: the conversion `LCB_US2NS` (`internal.h`, not in the
two source files) of microseconds to 64-bit nanoseconds. -/
def LCB_US2NS (us : Nat) : Nat := (us * 1000) % 2 ^ 64

/-- Modelled from the spec: the conversion `LCB_NS2US` (`internal.h`) of
nanoseconds to microseconds, rounding down. -/
def LCB_NS2US (ns : Nat) : Nat := ns / 1000

/-- `Server::next_timeout`, with the reading `now` of `gethrtime()`; 64-bit
times, 32-bit result. -/
def next_timeout (env : Env) (srv : Server) (now : Nat) : Nat :=
  match srv.requests.head? with
  | none => env.default_timeout
  | some pkt =>
    let expiry := (pkt.start + LCB_US2NS env.default_timeout) % 2 ^ 64
    let diff := if expiry ≤ now then 0 else expiry - now
    LCB_NS2US diff % 2 ^ 32

/-- `Server::io_timeout` (reached through `timeout_server`), with the reading
`now` of `gethrtime()` (one reading stands for both calls). -/
def io_timeout (env : Env) (srv : Server) (now : Nat) : Server × List Action :=
  let min_valid := (now + 2 ^ 64 - LCB_US2NS env.default_timeout) % 2 ^ 64
  let p := purge env srv LCB_ETIMEDOUT min_valid RefreshPolicy.REFRESH_ONFAILED
  let next_us := next_timeout env p.2.1 now
  ({ p.2.1 with io_timer := lcbio_timer_rearm p.2.1.io_timer next_us },
    p.2.2 ++ [Action.lcbio_timer_rearm next_us, Action.lcb_maybe_breakout])

/-- `Server::connect`. -/
def connect (srv : Server) : Server × List Action :=
  ({ srv with connreq := true, flush_start := FlushStart.flush_noop, state := State.S_CLEAN },
    [Action.sockpool_get])

/-- The loop of `finalize_errored_ctx` over the spans not yet flushed: each
span `mcreq_flush_iov_fill` yields is reported as flushed; a span of size 0
ends the loop. -/
def flush_all : List Nat → List Nat × List Action
  | [] => ([], [])
  | n :: rest =>
    if n = 0 then (n :: rest, [])
    else ((flush_all rest).1, Action.mcreq_flush_done n n :: (flush_all rest).2)

/-- `Server::finalize_errored_ctx`; `none` stands for the dereference of a
null `connctx`. -/
def finalize_errored_ctx (srv : Server) : Option (Server × List Action) :=
  match srv.connctx with
  | none => none
  | some ctx =>
    if ctx.npending ≠ 0 then some (srv, [])
    else
      let f := flush_all srv.unflushed
      let srv1 : Server := { srv with connctx := none, unflushed := f.1 }
      if srv1.state = State.S_CLOSED then
        some ({ srv1 with deleted := true }, [Action.lcbio_ctx_close] ++ f.2)
      else
        let c := connect { srv1 with state := State.S_CLEAN }
        some (c.1, [Action.lcbio_ctx_close] ++ f.2 ++ c.2)

/-- `Server::check_closed`: the result, the channel and the calls made. -/
def check_closed (srv : Server) : Option (Bool × Server × List Action) :=
  if srv.state = State.S_CLEAN then some (false, srv, [])
  else
    match finalize_errored_ctx srv with
    | none => none
    | some r => some (true, r.1, r.2)

/-- `Server::start_errored_ctx`. -/
def start_errored_ctx (env : Env) (srv : Server) (next_state : State) :
    Option (Server × List Action) :=
  let a1 := if srv.connreq = true then [Action.connreq_cancel] else []
  let srv1 : Server := { srv with state := next_state, connreq := false }
  let t : Server × List Action :=
    if next_state = State.S_CLOSED ∧ srv1.io_timer ≠ none then
      ({ srv1 with io_timer := none }, [Action.lcbio_timer_destroy])
    else (srv1, [])
  match srv.connctx with
  | none =>
    if next_state = State.S_CLOSED then some ({ t.1 with deleted := true }, a1 ++ t.2)
    else if t.1.has_pending = true then
      let r : Server × List Action :=
        if lcbio_timer_armed t.1.io_timer = false then
          ({ t.1 with io_timer := lcbio_timer_rearm t.1.io_timer env.default_timeout },
            [Action.lcbio_timer_rearm env.default_timeout])
        else (t.1, [])
      let c := connect r.1
      some (c.1, a1 ++ t.2 ++ r.2 ++ c.2)
    else some ({ t.1 with flush_start := FlushStart.server_connect }, a1 ++ t.2)
  | some ctx =>
    if ctx.npending ≠ 0 then
      some ({ t.1 with
          flush_start :=
            if next_state = State.S_ERRDRAIN then FlushStart.flush_errdrain
            else t.1.flush_start },
        a1 ++ t.2 ++ [Action.lcbio_ctx_schedule, Action.lcbio_shutdown])
    else
      match finalize_errored_ctx t.1 with
      | none => none
      | some f => some (f.1, a1 ++ t.2 ++ f.2)

/-- `Server::socket_failed`. -/
def socket_failed (env : Env) (srv : Server) (err : lcb_error_t) :
    Option (Server × List Action) :=
  match check_closed srv with
  | none => none
  | some (true, s, a) => some (s, a)
  | some (false, s, a) =>
    let p := purge env s err 0 RefreshPolicy.REFRESH_ALWAYS
    match start_errored_ctx env p.2.1 State.S_ERRDRAIN with
    | none => none
    | some r => some (r.1, a ++ p.2.2 ++ [Action.lcb_maybe_breakout] ++ r.2)

/-- `on_error`: the error callback of the context. -/
def on_error (env : Env) (srv : Server) (err : lcb_error_t) : Option (Server × List Action) :=
  match check_closed srv with
  | none => none
  | some (true, s, a) => some (s, a)
  | some (false, s, a) =>
    match socket_failed env s err with
    | none => none
    | some r => some (r.1, a ++ r.2)

/-- The loop `while (try_read(...) == PKT_READ_COMPLETE)` of `on_read`, with
fuel for the number of frames; `none` stands for a loop that does not end. -/
def read_loop (env : Env) :
    Nat → Server → List Nat → Option (Server × List Nat × List Action)
  | 0, _, _ => none
  | n + 1, srv, ior =>
    if (try_read env srv ior).rdstate = ReadState.PKT_READ_COMPLETE then
      match read_loop env n (try_read env srv ior).server (try_read env srv ior).ior with
      | none => none
      | some r => some (r.1, r.2.1, (try_read env srv ior).effects ++ r.2.2)
    else
      some ((try_read env srv ior).server, (try_read env srv ior).ior,
        (try_read env srv ior).effects)

/-- `on_read`: the read callback of the context, on its receive buffer. The
fuel is one more than the bytes buffered: it runs out only when a frame was
taken as complete without a byte being consumed (the frame size wrapped to 0),
and then the loop of the source sees the same frame for ever. `none` stands
for that, and for the dereference of a null `connctx`. -/
def on_read (env : Env) (srv : Server) (ior : List Nat) :
    Option (Server × List Nat × List Action) :=
  match check_closed srv with
  | none => none
  | some (true, s, a) => some (s, ior, a)
  | some (false, s, a) =>
    match read_loop env (ior.length + 1) s ior with
    | none => none
    | some r =>
      some (r.1, r.2.1, a ++ r.2.2 ++ [Action.lcbio_ctx_schedule, Action.lcb_maybe_breakout])

/-- `on_flush_done`: the flush-completion callback of the context, with the
reading `now` of `gethrtime()`. -/
def on_flush_done (env : Env) (srv : Server) (expected actual now : Nat) :
    Option (Server × List Action) :=
  let now1 := if env.readj_ts_wait = true then now else 0
  match check_closed srv with
  | none => none
  | some r => some (r.2.1, [Action.mcreq_flush_done_ex actual expected now1] ++ r.2.2)

/-- Modelled from the spec: `mcreq_flush_iov_fill` with room for one span, as
the loop of `finalize_errored_ctx` calls it: the size of the first span not
yet flushed, 0 when nothing remains to flush. -/
def mcreq_flush_iov_fill (unflushed : List Nat) : Nat :=
  unflushed.head?.getD 0

/-! ## Observations on a run of calls -/

/-- The request a call marks as handled, when it is `mcreq_packet_handled`. -/
def Action.handled? : Action → Option mc_PACKET
  | Action.mcreq_packet_handled p => some p
  | _ => none

/-- The request and error a call delivers to the user, when it is a response
dispatch or the forwarding callback. -/
def Action.delivery? : Action → Option (mc_PACKET × lcb_error_t)
  | Action.mcreq_dispatch_response p _ e => some (p, e)
  | Action.pktfwd p e _ _ => some (p, e)
  | _ => none

/-- The request a call hands to the retry queue, when it is one. -/
def Action.requeued? : Action → Option mc_PACKET
  | Action.nmvadd p => some p
  | Action.retryq_add p _ _ => some p
  | _ => none

/-- The options of a topology refresh, when the call requests one. -/
def Action.refresh? : Action → Option Nat
  | Action.bootstrap o => some o
  | _ => none

/-- The error a call force-closes the channel with, when it does. -/
def Action.senderr? : Action → Option lcb_error_t
  | Action.lcbio_ctx_senderr e => some e
  | _ => none

/-- The size a call reports to the flush accounting as flushed, when it is
`mcreq_flush_done`. -/
def Action.flushed? : Action → Option Nat
  | Action.mcreq_flush_done n _ => some n
  | _ => none

/-! ## Example inputs -/

/-- A pending request with correlation id 7 for vbucket 3. -/
def pkt_example : mc_PACKET := ⟨7, 0, 0, 3, 0, 1⟩

/-- A clean channel with that one pending request. -/
def srv_example : Server := { state := State.S_CLEAN, requests := [pkt_example], index := 0 }

/-- A draining channel with that one pending request and a transport handle
that still has one operation in flight. -/
def srv_draining : Server :=
  { state := State.S_ERRDRAIN, requests := [pkt_example], index := 0,
    connctx := some ⟨1⟩, flush_start := FlushStart.flush_errdrain }

/-- A response frame: the 24 header bytes for the given opcode, key length,
status, body length and correlation id, followed by the body bytes given. -/
def frame_example (opcode keylen status bodylen seq : Nat) (body : List Nat) : List Nat :=
  [0x81, opcode, keylen / 256 % 256, keylen % 256, 0, 0, status / 256 % 256, status % 256,
    bodylen / 16777216 % 256, bodylen / 65536 % 256, bodylen / 256 % 256, bodylen % 256,
    seq / 16777216 % 256, seq / 65536 % 256, seq / 256 % 256, seq % 256,
    0, 0, 0, 0, 0, 0, 0, 0] ++ body

/-- An environment: vbucket distribution, HTTP-origin topology, every request
eligible for retry, error map loaded and in use with the given entry for
every status. -/
def env_example (entry : Error) : Env :=
  { cccp_enabled := false
    cccp_update := fun _ => LCB_ERROR
    cur_origin := Method.CLCONFIG_HTTP
    distmode := lcbvb_DISTMODE.LCBVB_DIST_VBUCKET
    lcb_should_retry := fun _ _ => true
    mcreq_renew_packet := fun p => p
    errmap_isLoaded := true
    use_errmap := true
    errmap_getError := fun _ => entry
    error_for := fun _ => LCB_SUCCESS
    default_timeout := 2500000
    readj_ts_wait := false }

end mcserver

namespace bc_http

open lcb lcb.lcb_error_t

/-! ## Constants used by `bc_http.cc` -/

/-- Modelled from the spec: the literal delimiter token between two
configuration documents of the stream (`bc_http.h`, not in the two source
files): four line feeds. -/
def CONFIG_DELIMITER : List Char := ['\n', '\n', '\n', '\n']

/-- Modelled from the spec: parser state flag "have the HTTP status line"
(`lcbht.h`, not in the two source files). -/
def LCBHT_S_HTSTATUS : Nat := 0x01

/-- Modelled from the spec: parser state flag "have the HTTP header" (`lcbht.h`). -/
def LCBHT_S_HEADER : Nat := 0x02

/-- Modelled from the spec: parser state flag "have HTTP body" (`lcbht.h`). -/
def LCBHT_S_BODY : Nat := 0x04

/-- Modelled from the spec: parser state flag "have a full message" (`lcbht.h`). -/
def LCBHT_S_DONE : Nat := 0x08

/-- Modelled from the spec: parser state flag "parse error" (`lcbht.h`). -/
def LCBHT_S_ERROR : Nat := 0x10

/-- Modelled from the spec: URL form bit of the modern ("terse") form (`cntl.h`). -/
def LCB_HTCONFIG_URLTYPE_25PLUS : Nat := 0x01

/-- Modelled from the spec: URL form bit of the compat form (`cntl.h`). -/
def LCB_HTCONFIG_URLTYPE_COMPAT : Nat := 0x02

/-- Modelled from the spec: connection type "bucket" (`couchbase.h`). -/
def LCB_TYPE_BUCKET : Nat := 0

/-- Modelled from the spec: connection type "cluster" (`couchbase.h`). -/
def LCB_TYPE_CLUSTER : Nat := 1

/-! ## Data model -/

/-- Modelled from the spec: `lcb_host_t`, a host and a port. -/
structure lcb_host_t where
  host : List Char
  port : List Char
  deriving DecidableEq

/-- Modelled from the spec: `lcb::Hostlist`, the candidate nodes and the
cursor of the next one to try. -/
structure Hostlist where
  hosts : List lcb_host_t
  ix : Nat
  deriving DecidableEq

/-- Modelled from the spec: `lcbvb_CONFIG`, the topology document: the text it
was loaded from, and the host substituted by `lcbvb_replace_host`. -/
structure lcbvb_CONFIG where
  json : List Char
  replaced_host : Option (List Char)
  deriving DecidableEq

/-- Modelled from the spec: `ConfigInfo` (`clconfig_info`), a topology
document and its origin. Reference counts are not modelled. -/
structure ConfigInfo where
  vbc : lcbvb_CONFIG
  origin : Method
  deriving DecidableEq

/-- Modelled from the spec: `lcbht_RESPONSE`, what the chunked-HTTP parser has
produced so far: state flags, HTTP status and accumulated body (text without
NUL bytes). -/
structure lcbht_RESPONSE where
  state : Nat
  status : Nat
  body : List Char
  deriving DecidableEq

/-- The provider object of `bc_http.h`. A timer is `some d` when armed with
delay `d` and `none` when disarmed; `ioctx` and `creq` hold the host of the
connection, resp. of the connection attempt. -/
structure HttpProvider where
  ioctx : Option lcb_host_t
  creq : Option lcb_host_t
  htp : lcbht_RESPONSE
  disconn_timer : Option Nat
  io_timer : Option Nat
  as_reconnect : Option Nat
  nodes : Hostlist
  current_config : Option ConfigInfo
  last_parsed : Option ConfigInfo
  generation : Nat
  try_nexturi : Bool
  uritype : Nat
  request_buf : List Char
  deriving DecidableEq

/-- Settings, monitor state and results of collaborators the provider reads;
`request_buf_size` is `sizeof(request_buf)`, the array being declared in
`bc_http.h`, and `credentials` the text `username:password` when a password
is set. -/
structure Env where
  bc_http_stream_time : Nat
  bc_http_urltype : Nat
  conntype : Nat
  config_node_timeout : Nat
  grace_next_cycle : Nat
  bucket : List Char
  LCB_VERSION_STRING : List Char
  request_buf_size : Nat
  credentials : Option (List Char)
  lcb_base64_encode : List Char → Option (List Char)
  lcbht_parse : lcbht_RESPONSE → List Char → lcbht_RESPONSE
  lcbvb_load_json : List Char → Bool
  lcbio_connect : lcb_host_t → Bool
  parent_config : Bool
  is_cur_provider : Bool
  is_refreshing : Bool

/-- Calls into collaborators, in program order. -/
inductive Action
  | lcbio_ctx_close
  | lcbio_connect_cancel
  | provider_failed (err : lcb_error_t)
  | provider_got_config (cfg : ConfigInfo)
  | lcbio_ctx_put (buf : List Char)
  | lcbio_ctx_rwant (n : Nat)
  | lcbio_ctx_schedule
  deriving DecidableEq

/-! ## Collaborators -/

/-- Modelled from the spec: `Hostlist::next(wrap)`: the candidate under the
cursor, which then advances; at the end of the list the cursor wraps when
asked to and otherwise there is no candidate. -/
def Hostlist.next (hl : Hostlist) (wrap : Bool) : Option lcb_host_t × Hostlist :=
  if hl.hosts.isEmpty then (none, hl)
  else if hl.ix = hl.hosts.length then
    if wrap then (hl.hosts.get? 0, { hl with ix := 1 }) else (none, hl)
  else (hl.hosts.get? hl.ix, { hl with ix := hl.ix + 1 })

/-- Modelled from the spec: the loop of `lcbio_connect_hl`: candidates are
tried in order, at most once each, until a connection attempt can be started. -/
def connect_loop (env : Env) (rollover : Bool) : Nat → Hostlist → Option lcb_host_t × Hostlist
  | 0, hl => (none, (hl.next rollover).2)
  | n + 1, hl =>
    match hl.next rollover with
    | (none, hl1) => (none, hl1)
    | (some cur, hl1) =>
      if env.lcbio_connect cur then (some cur, hl1) else connect_loop env rollover n hl1

/-- Modelled from the spec: `lcbio_connect_hl` ("async connect-by-candidate-list,
returns a cancellable handle"). -/
def lcbio_connect_hl (env : Env) (hl : Hostlist) (rollover : Bool) :
    Option lcb_host_t × Hostlist :=
  connect_loop env rollover hl.hosts.length hl

/-- Modelled from the spec: `lcbht_reset`: the parser and its response start afresh. -/
def lcbht_reset (_r : lcbht_RESPONSE) : lcbht_RESPONSE := ⟨0, 0, []⟩

/-- The C function `strstr`: offset of the first occurrence of the needle. -/
def strstr : List Char → List Char → Option Nat
  | [], needle => if needle.isEmpty then some 0 else none
  | c :: rest, needle =>
    if needle.isPrefixOf (c :: rest) then some 0
    else (strstr rest needle).map (· + 1)

/-! ## `bc_http.cc` -/

/-- `HttpProvider::is_v220_compat`. -/
def is_v220_compat (env : Env) : Bool :=
  decide (env.bc_http_stream_time % 2 ^ 32 = 2 ^ 32 - 1)

/-- `HttpProvider::close_current`. -/
def close_current (http : HttpProvider) : HttpProvider × List Action :=
  let http1 := { http with disconn_timer := none }
  let a :=
    if http1.ioctx.isSome then [Action.lcbio_ctx_close]
    else if http1.creq.isSome then [Action.lcbio_connect_cancel]
    else []
  ({ http1 with creq := none, ioctx := none }, a)

/-- `io_error`: an error in I/O (read, write, connect, timeout). -/
def io_error (env : Env) (http : HttpProvider) (origerr : lcb_error_t) :
    lcb_error_t × HttpProvider × List Action :=
  let c := close_current http
  let r := lcbio_connect_hl env c.1.nodes false
  let http1 := { c.1 with creq := r.1, nodes := r.2 }
  if http1.creq.isSome then (LCB_SUCCESS, http1, c.2)
  else
    let http2 := { http1 with io_timer := none }
    let http3 :=
      if is_v220_compat env = true ∧ env.parent_config = true then
        if http2.as_reconnect.isSome = false then
          { http2 with as_reconnect := some env.grace_next_cycle }
        else http2
      else http2
    (origerr, http3, c.2 ++ [Action.provider_failed origerr])

/-- `set_new_config`; `none` stands for the dereference of a null
`last_parsed` or `ioctx`. -/
def set_new_config (http : HttpProvider) : Option (HttpProvider × List Action) :=
  match http.ioctx, http.last_parsed with
  | some curhost, some parsed =>
    let cfg : ConfigInfo :=
      { parsed with vbc := { parsed.vbc with replaced_host := some curhost.host } }
    some ({ http with current_config := some cfg, last_parsed := some cfg },
      [Action.provider_got_config cfg])
  | _, _ => none

/-- Modelled from the spec: the request line `REQBUCKET_TERSE_FMT` of
`bc_http.h` (not in the two source files), the modern form, for a bucket. -/
def REQBUCKET_TERSE_FMT (bucket : List Char) : List Char :=
  "GET /pools/default/bs/".toList ++ bucket ++ " HTTP/1.1\r\n".toList

/-- Modelled from the spec: the request line `REQBUCKET_COMPAT_FMT`
(`bc_http.h`), the compat form, for a bucket. -/
def REQBUCKET_COMPAT_FMT (bucket : List Char) : List Char :=
  "GET /pools/default/bucketsStreaming/".toList ++ bucket ++ " HTTP/1.1\r\n".toList

/-- Modelled from the spec: the request line `REQPOOLS_FMT` (`bc_http.h`) of a
cluster connection. -/
def REQPOOLS_FMT : List Char := "GET /pools/ HTTP/1.1\r\n".toList

/-- Modelled from the spec: the header `AUTHDR_FMT` (`bc_http.h`) for the
encoded credentials. -/
def AUTHDR_FMT (b64 : List Char) : List Char :=
  "Authorization: Basic ".toList ++ b64 ++ "\r\n".toList

/-- Modelled from the spec: the header `HOSTHDR_FMT` (`bc_http.h`) for a host. -/
def HOSTHDR_FMT (host : lcb_host_t) : List Char :=
  "Host: ".toList ++ host.host ++ ":".toList ++ host.port ++ "\r\n".toList

/-- Modelled from the spec: the header `LAST_HTTP_HEADER` (`bc_http.h`) for
the library version. -/
def LAST_HTTP_HEADER (version : List Char) : List Char :=
  "X-Libcouchbase: ".toList ++ version ++ "\r\n".toList

/-- The C call `snprintf(buf + offset, nbuf - offset, ...)` on an array of
`nbuf` characters that holds the string `buf`, for the formatted text `text`:
the string after the call and the value returned plus `offset`. The text is
written at `offset` and cut to the `nbuf - offset - 1` characters that fit
before the terminator; with `offset = nbuf` the size is 0 and nothing is
written; the value returned is the length of the whole text. `none` stands for
`offset > nbuf`: the size `nbuf - offset` wraps around and the text is written
past the array. -/
def snprintf_at (buf : List Char) (nbuf offset : Nat) (text : List Char) :
    Option (List Char × Nat) :=
  if nbuf < offset then none
  else if nbuf = offset then some (buf, offset + text.length)
  else some (buf.take offset ++ text.take (nbuf - offset - 1), offset + text.length)

/-- `setup_request_header`: the request text for the current URL form, written
into the array `request_buf` by successive `snprintf` calls at a running
offset that is not checked against the size of the array; `none` stands for a
write past the array. The credentials are first cut to the 255 characters
that fit `cred`. -/
def setup_request_header (env : Env) (http : HttpProvider) (host : lcb_host_t) :
    Option (lcb_error_t × HttpProvider) :=
  let nbuf := env.request_buf_size
  if env.conntype ≠ LCB_TYPE_BUCKET ∧ env.conntype ≠ LCB_TYPE_CLUSTER then
    some (LCB_EINVAL, { http with request_buf := [] })
  else
    let line : List Char :=
      if env.conntype = LCB_TYPE_BUCKET then
        if http.uritype = LCB_HTCONFIG_URLTYPE_25PLUS then REQBUCKET_TERSE_FMT env.bucket
        else REQBUCKET_COMPAT_FMT env.bucket
      else REQPOOLS_FMT
    match snprintf_at [] nbuf 0 line with
    | none => none
    | some l =>
      -- the authorization header: `none` is the return of `LCB_EINTERNAL`
      let auth : Option (Option (List Char × Nat)) :=
        match env.credentials with
        | none => some (some l)
        | some cred =>
          match env.lcb_base64_encode (cred.take 255) with
          | none => none
          | some b64 => some (snprintf_at l.1 nbuf l.2 (AUTHDR_FMT b64))
      match auth with
      | none => some (LCB_EINTERNAL, { http with request_buf := l.1 })
      | some none => none
      | some (some a) =>
        match snprintf_at a.1 nbuf a.2 (HOSTHDR_FMT host) with
        | none => none
        | some h =>
          match snprintf_at h.1 nbuf h.2
              (LAST_HTTP_HEADER env.LCB_VERSION_STRING ++ "\r\n".toList) with
          | none => none
          | some r => some (LCB_SUCCESS, { http with request_buf := r.1 })

/-- `process_chunk`: feed one buffer to the parser and extract at most one
configuration document from the accumulated body. `none` stands for the
dereference of a null `ioctx` and for a write past `request_buf`; failure of
`lcbvb_create` to allocate is not modelled. After `*term = 0` the body, read as a C string, ends at `term`. -/
def process_chunk (env : Env) (http : HttpProvider) (buf : List Char) :
    Option (lcb_error_t × HttpProvider × List Action) :=
  let oldstate := http.htp.state
  let resp := env.lcbht_parse http.htp buf
  let http0 := { http with htp := resp }
  let state := resp.state
  let diff := state ^^^ oldstate
  if state &&& LCBHT_S_ERROR ≠ 0 then some (LCB_PROTOCOL_ERROR, http0, [])
  else
    -- the header block: `some err` is the early return at `GT_HT_ERROR`
    let hdr : Option lcb_error_t × HttpProvider :=
      if diff &&& LCBHT_S_HEADER ≠ 0 then
        if resp.status = 200 then (none, http0)
        else if resp.status = 404 then
          let http1 := { http0 with uritype := http0.uritype + 1 }
          if http1.uritype > LCB_HTCONFIG_URLTYPE_COMPAT then (some LCB_BUCKET_ENOENT, http1)
          else if env.bc_http_urltype &&& LCB_HTCONFIG_URLTYPE_COMPAT = 0 then
            (some LCB_BUCKET_ENOENT, http1)
          else (none, { http1 with try_nexturi := true })
        else if resp.status = 401 then (some LCB_AUTH_ERROR, http0)
        else (some LCB_ERROR, http0)
      else (none, http0)
    match hdr with
    | (some err, http1) => some (err, http1, [])
    | (none, http1) =>
      if http1.try_nexturi then
        if state &&& LCBHT_S_DONE = 0 then some (LCB_SUCCESS, http1, [])
        else
          match http1.ioctx with
          | none => none
          | some host =>
            match setup_request_header env { http1 with try_nexturi := false } host with
            | none => none
            | some r =>
              if r.1 ≠ LCB_SUCCESS then some (r.1, r.2, [])
              else
                some (LCB_SUCCESS, { r.2 with htp := lcbht_reset r.2.htp },
                  [Action.lcbio_ctx_put r.2.request_buf])
      else if env.conntype = LCB_TYPE_CLUSTER then
        some (LCB_SUCCESS, { http1 with htp := { resp with body := [] } }, [])
      else if state &&& LCBHT_S_BODY = 0 then some (LCB_SUCCESS, http1, [])
      else
        match strstr resp.body CONFIG_DELIMITER with
        | none => some (LCB_SUCCESS, http1, [])
        | some term =>
          let text := resp.body.take term
          if env.lcbvb_load_json text = false then
            some (LCB_PROTOCOL_ERROR, { http1 with htp := { resp with body := text } }, [])
          else
            let parsed : ConfigInfo := ⟨⟨text, none⟩, Method.CLCONFIG_HTTP⟩
            some (LCB_SUCCESS,
              { http1 with
                last_parsed := some parsed
                generation := (http1.generation + 1) % 2 ^ 32
                htp := { resp with body := resp.body.drop (term + CONFIG_DELIMITER.length) } },
              [])

/-- The `LCBIO_CTX_ITERFOR` loop of `read_common`: each buffer segment of the
read goes through `process_chunk`; the first error stops the loop. -/
def read_segments (env : Env) :
    HttpProvider → List (List Char) → Option (lcb_error_t × HttpProvider × List Action)
  | http, [] => some (LCB_SUCCESS, http, [])
  | http, buf :: rest =>
    match process_chunk env http buf with
    | none => none
    | some r =>
      if r.1 ≠ LCB_SUCCESS then some r
      else
        match read_segments env r.2.1 rest with
        | none => none
        | some r2 => some (r2.1, r2.2.1, r.2.2 ++ r2.2.2)

/-- `read_common`, on the buffer segments of one read event; `none` stands for
the dereference of a null pointer. -/
def read_common (env : Env) (http : HttpProvider) (segments : List (List Char)) :
    Option (HttpProvider × List Action) :=
  let old_generation := http.generation
  let http1 := { http with io_timer := some env.config_node_timeout }
  match read_segments env http1 segments with
  | none => none
  | some r =>
    if r.1 ≠ LCB_SUCCESS then
      let e := io_error env r.2.1 r.1
      some (e.2.1, r.2.2 ++ e.2.2)
    else
      let http2 := r.2.1
      let tail := [Action.lcbio_ctx_rwant 1, Action.lcbio_ctx_schedule]
      if http2.generation ≠ old_generation then
        match set_new_config { http2 with io_timer := none } with
        | none => none
        | some (http3, a) => some (http3, r.2.2 ++ a ++ tail)
      else some (http2, r.2.2 ++ tail)

/-- `HttpProvider::reset_stream_state`. -/
def reset_stream_state (env : Env) (http : HttpProvider) : HttpProvider :=
  { http with
    last_parsed := none
    uritype :=
      if env.bc_http_urltype &&& LCB_HTCONFIG_URLTYPE_25PLUS ≠ 0 then LCB_HTCONFIG_URLTYPE_25PLUS
      else LCB_HTCONFIG_URLTYPE_COMPAT
    try_nexturi := false
    htp := lcbht_reset http.htp }

/-- `on_connected`: completion of the connection attempt, with the host of
the socket and the error of the attempt; `none` stands for a write past
`request_buf`. -/
def on_connected (env : Env) (http : HttpProvider) (sock : lcb_host_t) (err : lcb_error_t) :
    Option (HttpProvider × List Action) :=
  let http0 := { http with creq := none }
  if err ≠ LCB_SUCCESS then some (io_error env http0 err).2
  else
    match setup_request_header env (reset_stream_state env http0) sock with
    | none => none
    | some r =>
      if r.1 ≠ LCB_SUCCESS then some (io_error env r.2 r.1).2
      else
        some ({ r.2 with ioctx := some sock, io_timer := some env.config_node_timeout },
          [Action.lcbio_ctx_put r.2.request_buf, Action.lcbio_ctx_rwant 1,
            Action.lcbio_ctx_schedule])

/-- `timeout_handler`: the I/O timer fired. -/
def timeout_handler (env : Env) (http : HttpProvider) : HttpProvider × List Action :=
  if env.is_cur_provider = false ∨ env.is_refreshing = false then (http, [])
  else (io_error env http LCB_ETIMEDOUT).2

/-- `connect_next`. -/
def connect_next (env : Env) (http : HttpProvider) : lcb_error_t × HttpProvider × List Action :=
  let c := close_current http
  let http1 := { c.1 with as_reconnect := none }
  if http1.nodes.hosts.isEmpty then (LCB_CONNECT_ERROR, http1, c.2)
  else
    let r := lcbio_connect_hl env http1.nodes true
    let http2 := { http1 with creq := r.1, nodes := r.2 }
    if http2.creq.isSome then (LCB_SUCCESS, http2, c.2)
    else (LCB_CONNECT_ERROR, http2, c.2)

/-- `delayed_disconn`: the disconnect timer fired. -/
def delayed_disconn (http : HttpProvider) : HttpProvider × List Action :=
  let c := close_current http
  ({ c.1 with io_timer := none }, c.2)

/-- `delayed_reconnect`: the reconnect signal fired. -/
def delayed_reconnect (env : Env) (http : HttpProvider) : HttpProvider × List Action :=
  if http.ioctx.isSome then (http, [])
  else
    let r := connect_next env http
    if r.1 ≠ LCB_SUCCESS then
      let e := io_error env r.2.1 r.1
      (e.2.1, r.2.2 ++ e.2.2)
    else r.2

/-- `HttpProvider::pause`. -/
def pause (env : Env) (http : HttpProvider) : HttpProvider :=
  if is_v220_compat env then http
  else if http.disconn_timer.isSome = false then
    { http with disconn_timer := some env.bc_http_stream_time }
  else http

/-- `HttpProvider::refresh`; `lcbio_async_signal` arms the timer with no delay. -/
def refresh (env : Env) (http : HttpProvider) : HttpProvider :=
  let http1 :=
    if http.ioctx = none ∧ http.creq = none then { http with as_reconnect := some 0 } else http
  let http2 := { http1 with disconn_timer := none }
  if http2.ioctx.isSome then { http2 with io_timer := some env.config_node_timeout } else http2

/-- `HttpProvider::configure_nodes`; the list given is the one after the
optional randomization. -/
def configure_nodes (http : HttpProvider) (newnodes : List lcb_host_t) : HttpProvider :=
  { http with nodes := ⟨newnodes, 0⟩ }

/-- The constructor `HttpProvider::HttpProvider`. -/
def HttpProvider.new : HttpProvider :=
  { ioctx := none
    creq := none
    htp := ⟨0, 0, []⟩
    disconn_timer := none
    io_timer := none
    as_reconnect := none
    nodes := ⟨[], 0⟩
    current_config := none
    last_parsed := none
    generation := 0
    try_nexturi := false
    uritype := 0
    request_buf := [] }

/-- States of the provider reachable from construction through the operations
of the session. -/
inductive Reachable (env : Env) : HttpProvider → Prop
  | new : Reachable env HttpProvider.new
  | configure_nodes (s : HttpProvider) (l : List lcb_host_t) :
      Reachable env s → Reachable env (configure_nodes s l)
  | close_current (s : HttpProvider) : Reachable env s → Reachable env (close_current s).1
  | io_error (s : HttpProvider) (e : lcb_error_t) :
      Reachable env s → Reachable env (io_error env s e).2.1
  | connect_next (s : HttpProvider) : Reachable env s → Reachable env (connect_next env s).2.1
  | on_connected (s : HttpProvider) (sock : lcb_host_t) (e : lcb_error_t)
      (r : HttpProvider × List Action) :
      Reachable env s → s.creq.isSome = true → on_connected env s sock e = some r →
      Reachable env r.1
  | delayed_disconn (s : HttpProvider) : Reachable env s → Reachable env (delayed_disconn s).1
  | delayed_reconnect (s : HttpProvider) :
      Reachable env s → Reachable env (delayed_reconnect env s).1
  | pause (s : HttpProvider) : Reachable env s → Reachable env (pause env s)
  | refresh (s : HttpProvider) : Reachable env s → Reachable env (refresh env s)

/-! ## Example inputs -/

/-- A parser in the body phase of a response: the buffer is appended to the
accumulated body, state and status stay as they are. -/
def append_to_body (r : lcbht_RESPONSE) (buf : List Char) : lcbht_RESPONSE :=
  { r with body := r.body ++ buf }

/-- An environment: a bucket connection, both URL forms enabled, the parser in
the body phase, every text accepted by the deserializer. -/
def env_example : Env :=
  { bc_http_stream_time := 0
    bc_http_urltype := 3
    conntype := LCB_TYPE_BUCKET
    config_node_timeout := 2000000
    grace_next_cycle := 1000
    bucket := ['b']
    LCB_VERSION_STRING := ['2']
    request_buf_size := 1024
    credentials := none
    lcb_base64_encode := fun c => some c
    lcbht_parse := append_to_body
    lcbvb_load_json := fun _ => true
    lcbio_connect := fun _ => true
    parent_config := false
    is_cur_provider := true
    is_refreshing := true }

/-- A provider streaming from node `n` whose response is in the body phase
(status line and header seen, status 200), nothing accumulated yet. -/
def http_example : HttpProvider :=
  { ioctx := some ⟨['n'], ['1']⟩
    creq := none
    htp := ⟨LCBHT_S_HTSTATUS ||| LCBHT_S_HEADER ||| LCBHT_S_BODY, 200, []⟩
    disconn_timer := none
    io_timer := none
    as_reconnect := none
    nodes := ⟨[⟨['n'], ['1']⟩], 1⟩
    current_config := none
    last_parsed := none
    generation := 0
    try_nexturi := false
    uritype := LCB_HTCONFIG_URLTYPE_25PLUS
    request_buf := [] }

/-- The document a call publishes, when it is the "new config" notification. -/
def Action.got_config? : Action → Option ConfigInfo
  | Action.provider_got_config cfg => some cfg
  | _ => none

end bc_http

/-! # Theorems -/

namespace mcserver

open lcb lcb.lcb_error_t

/-! ## Lemmas on the pipeline helpers -/

theorem mcreq_pipeline_remove_fst (l : List mc_PACKET) (seq : Nat) :
    (mcreq_pipeline_remove l seq).1 = mcreq_pipeline_find l seq := by
  induction l with
  | nil => rfl
  | cons p rest ih =>
    simp only [mcreq_pipeline_remove, mcreq_pipeline_find]
    split <;> simp [ih]

theorem mcreq_pipeline_remove_none (l : List mc_PACKET) (seq : Nat)
    (h : mcreq_pipeline_find l seq = none) : (mcreq_pipeline_remove l seq).2 = l := by
  induction l with
  | nil => rfl
  | cons p rest ih =>
    simp only [mcreq_pipeline_find] at h
    simp only [mcreq_pipeline_remove]
    split
    · rename_i hp; simp [hp] at h
    · rename_i hp; simp only [hp, if_false] at h; simp [ih h]

theorem mcreq_pipeline_find_opaq (l : List mc_PACKET) (seq : Nat) (p : mc_PACKET)
    (h : mcreq_pipeline_find l seq = some p) : p.opaq = seq ∧ p ∈ l := by
  induction l with
  | nil => simp [mcreq_pipeline_find] at h
  | cons q rest ih =>
    simp only [mcreq_pipeline_find] at h
    split at h
    · rename_i hq; simp at h; subst h; exact ⟨hq, by simp⟩
    · have := ih h; exact ⟨this.1, by simp [this.2]⟩

theorem mcreq_pipeline_find_none_iff (l : List mc_PACKET) (seq : Nat) :
    mcreq_pipeline_find l seq = none ↔ ∀ p ∈ l, p.opaq ≠ seq := by
  induction l with
  | nil => simp [mcreq_pipeline_find]
  | cons q rest ih =>
    simp only [mcreq_pipeline_find]
    split
    · rename_i hq; simp [hq]
    · rename_i hq; simp [ih, hq]

theorem mcreq_pipeline_remove_erase (l : List mc_PACKET) (seq : Nat) (p : mc_PACKET)
    (h : mcreq_pipeline_find l seq = some p) : (mcreq_pipeline_remove l seq).2 = l.erase p := by
  induction l with
  | nil => simp [mcreq_pipeline_find] at h
  | cons q rest ih =>
    simp only [mcreq_pipeline_find] at h
    simp only [mcreq_pipeline_remove]
    split
    · rename_i hq; simp [hq] at h; subst h; simp
    · rename_i hq
      simp only [hq, if_false] at h
      have hne : q ≠ p := by
        intro e; subst e; exact hq (mcreq_pipeline_find_opaq _ _ _ h).1
      simp [ih h, List.erase_cons_tail, hne]

theorem mcreq_pipeline_remove_find_none (l : List mc_PACKET) (seq : Nat)
    (hnd : (l.map mc_PACKET.opaq).Nodup) :
    mcreq_pipeline_find (mcreq_pipeline_remove l seq).2 seq = none := by
  induction l with
  | nil => rfl
  | cons q rest ih =>
    simp only [List.map_cons, List.nodup_cons] at hnd
    simp only [mcreq_pipeline_remove]
    split
    · rename_i hq
      rw [mcreq_pipeline_find_none_iff]
      intro p hp hps
      apply hnd.1
      rw [hq, ← hps]
      exact List.mem_map_of_mem _ hp
    · rename_i hq
      simp only [mcreq_pipeline_find, hq, if_false]
      exact ih hnd.2

end mcserver

namespace mcserver

open lcb lcb.lcb_error_t

/-! ## Lemmas on `handle_nmv`, `handle_unknown_error` and the found part of `try_read` -/

theorem handle_nmv_handled (env : Env) (srv : Server) (r : MemcachedResponse) (p : mc_PACKET) :
    (handle_nmv env srv r p).2.filterMap Action.handled? = [] := by
  unfold handle_nmv
  simp only []
  split_ifs <;> simp [Action.handled?]

theorem handle_nmv_delivery (env : Env) (srv : Server) (r : MemcachedResponse) (p : mc_PACKET) :
    (handle_nmv env srv r p).2.filterMap Action.delivery? = [] := by
  unfold handle_nmv
  simp only []
  split_ifs <;> simp [Action.delivery?]

theorem handle_unknown_error_handled (env : Env) (p : mc_PACKET) (r : MemcachedResponse)
    (e : lcb_error_t) :
    (handle_unknown_error env p r e).effects.filterMap Action.handled? = [] := by
  unfold handle_unknown_error
  simp only []
  split_ifs <;> simp [Action.handled?]

theorem handle_unknown_error_delivery (env : Env) (p : mc_PACKET) (r : MemcachedResponse)
    (e : lcb_error_t) :
    (handle_unknown_error env p r e).effects.filterMap Action.delivery? = [] := by
  unfold handle_unknown_error
  simp only []
  split_ifs <;> simp [Action.delivery?]

theorem try_read_found_server (env : Env) (srv1 : Server) (ior : List Nat)
    (m : MemcachedResponse) (is_last : Bool) (req : mc_PACKET) :
    (try_read_found env srv1 ior m is_last req).server = srv1 := by
  unfold try_read_found
  simp only []
  split_ifs <;> rfl

theorem DO_SWALLOW_ASSIGN (ior : List Nat) (m : MemcachedResponse) :
    DO_SWALLOW_PAYLOAD (DO_ASSIGN_PAYLOAD ior m).1 (DO_ASSIGN_PAYLOAD ior m).2
      = ior.drop (24 + m.bodylen) := by
  unfold DO_SWALLOW_PAYLOAD DO_ASSIGN_PAYLOAD MemcachedResponse.hdrsize
  by_cases h : m.bodylen = 0
  · simp [h]
  · simp [h, List.drop_drop, Nat.add_comm]

theorem try_read_found_ior (env : Env) (srv1 : Server) (ior : List Nat)
    (m : MemcachedResponse) (is_last : Bool) (req : mc_PACKET)
    (hw : 24 + m.bodylen < 2 ^ 32) :
    (try_read_found env srv1 ior m is_last req).ior = ior.drop (24 + m.bodylen) := by
  unfold try_read_found
  simp only [Nat.mod_eq_of_lt hw]
  split_ifs <;> first | rfl | exact DO_SWALLOW_ASSIGN ior m

theorem try_read_found_handled (env : Env) (srv1 : Server) (ior : List Nat)
    (m : MemcachedResponse) (is_last : Bool) (req : mc_PACKET) :
    (try_read_found env srv1 ior m is_last req).effects.filterMap Action.handled?
      = if is_last then [req] else [] := by
  unfold try_read_found
  simp only []
  cases is_last <;> split_ifs <;>
    first
    | contradiction
    | simp [GT_DONE, Action.handled?, handle_nmv_handled, handle_unknown_error_handled]

theorem try_read_found_delivery (env : Env) (srv1 : Server) (ior : List Nat)
    (m : MemcachedResponse) (is_last : Bool) (req : mc_PACKET) :
    ∀ d ∈ (try_read_found env srv1 ior m is_last req).effects.filterMap Action.delivery?,
      d.1 = req := by
  unfold try_read_found
  simp only []
  cases is_last <;> split_ifs <;>
    first
    | contradiction
    | simp [GT_DONE, Action.delivery?, handle_nmv_delivery, handle_unknown_error_delivery]

/-- On a complete frame that is a `STAT` reply with a key, `try_read` looks
the request up and leaves the pipeline as it is. -/
theorem try_read_complete_stat (env : Env) (srv : Server) (ior : List Nat)
    (hc : 24 + (MemcachedResponse.read ior).bodylen ≤ ior.length)
    (hs : (MemcachedResponse.read ior).opcode = PROTOCOL_BINARY_CMD_STAT
      ∧ (MemcachedResponse.read ior).keylen ≠ 0) :
    try_read env srv ior =
      match mcreq_pipeline_find srv.requests (MemcachedResponse.read ior).opaq with
      | none => ⟨ReadState.PKT_READ_COMPLETE, srv,
          ior.drop ((24 + (MemcachedResponse.read ior).bodylen) % 2 ^ 32), []⟩
      | some request => try_read_found env srv ior (MemcachedResponse.read ior) false request := by
  have h1 : ¬ ior.length < 24 := by omega
  have h2 : ¬ ior.length < (24 + (MemcachedResponse.read ior).bodylen) % 2 ^ 32 := by
    have := Nat.mod_le (24 + (MemcachedResponse.read ior).bodylen) (2 ^ 32)
    omega
  unfold try_read
  simp only [h1, h2, if_false]
  rw [if_pos hs]

/-- On any other complete frame, `try_read` removes the request from the pipeline. -/
theorem try_read_complete_last (env : Env) (srv : Server) (ior : List Nat)
    (hc : 24 + (MemcachedResponse.read ior).bodylen ≤ ior.length)
    (hs : ¬ ((MemcachedResponse.read ior).opcode = PROTOCOL_BINARY_CMD_STAT
      ∧ (MemcachedResponse.read ior).keylen ≠ 0)) :
    try_read env srv ior =
      match mcreq_pipeline_find srv.requests (MemcachedResponse.read ior).opaq with
      | none => ⟨ReadState.PKT_READ_COMPLETE, srv,
          ior.drop ((24 + (MemcachedResponse.read ior).bodylen) % 2 ^ 32), []⟩
      | some request =>
        try_read_found env
          { srv with requests :=
              (mcreq_pipeline_remove srv.requests (MemcachedResponse.read ior).opaq).2 }
          ior (MemcachedResponse.read ior) true request := by
  have h1 : ¬ ior.length < 24 := by omega
  have h2 : ¬ ior.length < (24 + (MemcachedResponse.read ior).bodylen) % 2 ^ 32 := by
    have := Nat.mod_le (24 + (MemcachedResponse.read ior).bodylen) (2 ^ 32)
    omega
  unfold try_read
  simp only [h1, h2, if_false]
  rw [if_neg hs]
  simp only [mcreq_pipeline_remove_fst]
  cases hf : mcreq_pipeline_find srv.requests (MemcachedResponse.read ior).opaq with
  | none => simp [mcreq_pipeline_remove_none _ _ hf]
  | some req => rfl

/-! ## Claims on `Server::try_read` -/

/-- Below the wrap of the 32-bit frame size: on an incomplete frame (fewer than
24 bytes buffered, or the header present, `24 + bodylen < 2 ^ 32` and fewer
than 24 + bodylen bytes buffered) `try_read` returns `PKT_READ_PARTIAL`,
consumes nothing, leaves the channel and its pending requests as they are,
delivers nothing and marks nothing handled; its only call is the request for
more bytes (24, resp. 24 + bodylen), made exactly when the pipeline has pending
requests. -/
theorem try_read_incomplete_frame (env : Env) (srv : Server) (ior : List Nat)
    (h : ior.length < 24
      ∨ (24 ≤ ior.length ∧ ior.length < 24 + (MemcachedResponse.read ior).bodylen
        ∧ 24 + (MemcachedResponse.read ior).bodylen < 2 ^ 32)) :
    (try_read env srv ior).rdstate = ReadState.PKT_READ_PARTIAL
    ∧ (try_read env srv ior).ior = ior
    ∧ (try_read env srv ior).server = srv
    ∧ (try_read env srv ior).effects.filterMap Action.delivery? = []
    ∧ (try_read env srv ior).effects.filterMap Action.handled? = []
    ∧ (try_read env srv ior).effects =
        if srv.has_pending = true then
          [Action.lcbio_ctx_rwant
            (if ior.length < 24 then 24 else 24 + (MemcachedResponse.read ior).bodylen)]
        else [] := by
  unfold try_read
  rcases h with h | ⟨h24, hb, hw⟩
  · simp only [h, if_true, RETURN_NEED_MORE]
    refine ⟨?_, ?_, ?_, ?_, ?_, ?_⟩ <;>
      first
      | trivial
      | (split_ifs <;> simp [Action.delivery?, Action.handled?])
  · have h1 : ¬ ior.length < 24 := by omega
    simp only [h1, Nat.mod_eq_of_lt hw, hb, if_true, if_false, RETURN_NEED_MORE]
    refine ⟨?_, ?_, ?_, ?_, ?_, ?_⟩ <;>
      first
      | trivial
      | (split_ifs <;> simp [Action.delivery?, Action.handled?])

/-- A 26-byte buffer whose header announces a 5-byte body: three more bytes
are asked for. -/
theorem try_read_incomplete_frame_witness :
    ((frame_example 0 0 0 5 7 [1, 2]).length < 24
      ∨ (24 ≤ (frame_example 0 0 0 5 7 [1, 2]).length
        ∧ (frame_example 0 0 0 5 7 [1, 2]).length
          < 24 + (MemcachedResponse.read (frame_example 0 0 0 5 7 [1, 2])).bodylen
        ∧ 24 + (MemcachedResponse.read (frame_example 0 0 0 5 7 [1, 2])).bodylen < 2 ^ 32))
    ∧ (try_read (env_example ⟨false, [], 0⟩) srv_example
        (frame_example 0 0 0 5 7 [1, 2])).effects = [Action.lcbio_ctx_rwant 29] :=
  ⟨by decide,
    (try_read_incomplete_frame (env_example ⟨false, [], 0⟩) srv_example
      (frame_example 0 0 0 5 7 [1, 2]) (by decide)).2.2.2.2.2⟩

/-- C1 (code bug): the frame size is summed in an `unsigned`, so a header that
announces a body of 2^32 - 24 bytes or more makes it wrap below 24. On a
24-byte buffer whose header announces 2^32 - 1 body bytes for the pending
request 7 the frame is incomplete, yet `try_read` does not return
`PKT_READ_PARTIAL`: it takes the frame as complete, removes the request from
the pipeline, delivers a response for it and marks it handled. -/
theorem try_read_frame_size_wraps :
    24 ≤ (frame_example 0 0 0 4294967295 7 []).length
    ∧ (frame_example 0 0 0 4294967295 7 []).length
        < 24 + (MemcachedResponse.read (frame_example 0 0 0 4294967295 7 [])).bodylen
    ∧ srv_example.requests = [pkt_example]
    ∧ (try_read (env_example ⟨false, [], 0⟩) srv_example
        (frame_example 0 0 0 4294967295 7 [])).rdstate = ReadState.PKT_READ_COMPLETE
    ∧ (try_read (env_example ⟨false, [], 0⟩) srv_example
        (frame_example 0 0 0 4294967295 7 [])).server.requests = []
    ∧ (try_read (env_example ⟨false, [], 0⟩) srv_example
        (frame_example 0 0 0 4294967295 7 [])).effects.filterMap Action.delivery?
      = [(pkt_example, LCB_SUCCESS)]
    ∧ (try_read (env_example ⟨false, [], 0⟩) srv_example
        (frame_example 0 0 0 4294967295 7 [])).effects.filterMap Action.handled?
      = [pkt_example] := by
  decide

/-- C2: a complete frame is matched to at most one pending request, the first
with its correlation id: every delivery concerns that request. A `STAT` reply
with a non-empty key leaves the pipeline as it is and marks nothing handled.
Every other frame removes the matched request from the pipeline and marks it
handled exactly once; with unique correlation ids in the pipeline, a later
lookup of the same id finds no request. -/
theorem try_read_matches_one_request (env : Env) (srv : Server) (ior : List Nat)
    (hc : 24 + (MemcachedResponse.read ior).bodylen ≤ ior.length) :
    (∀ d ∈ (try_read env srv ior).effects.filterMap Action.delivery?,
        mcreq_pipeline_find srv.requests (MemcachedResponse.read ior).opaq = some d.1
        ∧ d.1.opaq = (MemcachedResponse.read ior).opaq)
    ∧ ((MemcachedResponse.read ior).opcode = PROTOCOL_BINARY_CMD_STAT
          ∧ (MemcachedResponse.read ior).keylen ≠ 0 →
        (try_read env srv ior).server.requests = srv.requests
        ∧ (try_read env srv ior).effects.filterMap Action.handled? = [])
    ∧ (¬ ((MemcachedResponse.read ior).opcode = PROTOCOL_BINARY_CMD_STAT
          ∧ (MemcachedResponse.read ior).keylen ≠ 0) →
        (try_read env srv ior).server.requests
          = (mcreq_pipeline_remove srv.requests (MemcachedResponse.read ior).opaq).2
        ∧ (∀ req, mcreq_pipeline_find srv.requests (MemcachedResponse.read ior).opaq = some req →
            (try_read env srv ior).server.requests = srv.requests.erase req
            ∧ (try_read env srv ior).effects.filterMap Action.handled? = [req])
        ∧ (mcreq_pipeline_find srv.requests (MemcachedResponse.read ior).opaq = none →
            (try_read env srv ior).server.requests = srv.requests
            ∧ (try_read env srv ior).effects = [])
        ∧ ((srv.requests.map mc_PACKET.opaq).Nodup →
            mcreq_pipeline_find (try_read env srv ior).server.requests
              (MemcachedResponse.read ior).opaq = none)) := by
  refine ⟨?_, ?_, ?_⟩
  · intro d hd
    by_cases hs : (MemcachedResponse.read ior).opcode = PROTOCOL_BINARY_CMD_STAT
        ∧ (MemcachedResponse.read ior).keylen ≠ 0
    · rw [try_read_complete_stat env srv ior hc hs] at hd
      cases hf : mcreq_pipeline_find srv.requests (MemcachedResponse.read ior).opaq with
      | none => simp [hf] at hd
      | some req =>
        simp only [hf] at hd
        have := try_read_found_delivery _ _ _ _ _ _ d hd
        rw [this]
        exact ⟨rfl, (mcreq_pipeline_find_opaq _ _ _ hf).1⟩
    · rw [try_read_complete_last env srv ior hc hs] at hd
      cases hf : mcreq_pipeline_find srv.requests (MemcachedResponse.read ior).opaq with
      | none => simp [hf] at hd
      | some req =>
        simp only [hf] at hd
        have := try_read_found_delivery _ _ _ _ _ _ d hd
        rw [this]
        exact ⟨rfl, (mcreq_pipeline_find_opaq _ _ _ hf).1⟩
  · intro hs
    rw [try_read_complete_stat env srv ior hc hs]
    cases hf : mcreq_pipeline_find srv.requests (MemcachedResponse.read ior).opaq with
    | none => simp
    | some req => simp [try_read_found_server, try_read_found_handled]
  · intro hs
    rw [try_read_complete_last env srv ior hc hs]
    cases hf : mcreq_pipeline_find srv.requests (MemcachedResponse.read ior).opaq with
    | none =>
      rw [mcreq_pipeline_remove_none _ _ hf]
      refine ⟨rfl, ?_, ?_, ?_⟩
      · intro req hreq; cases hreq
      · intro _; exact ⟨rfl, rfl⟩
      · intro _; exact hf
    | some req =>
      simp only []
      refine ⟨?_, ?_, ?_, ?_⟩
      · rw [try_read_found_server]
      · intro req2 hreq
        cases hreq
        refine ⟨?_, ?_⟩
        · rw [← mcreq_pipeline_remove_erase _ _ _ hf, try_read_found_server]
        · rw [try_read_found_handled]; rfl
      · intro h; cases h
      · intro hnd
        rw [try_read_found_server]
        exact mcreq_pipeline_remove_find_none _ _ hnd

/-- Witness of C2: a complete `GET`-style reply for the pending request 7. -/
theorem try_read_matches_one_request_witness :
    24 + (MemcachedResponse.read (frame_example 0 0 0 2 7 [1, 2])).bodylen
        ≤ (frame_example 0 0 0 2 7 [1, 2]).length
    ∧ (try_read (env_example ⟨false, [], 0⟩) srv_example
        (frame_example 0 0 0 2 7 [1, 2])).server.requests = [] :=
  ⟨by decide,
    ((try_read_matches_one_request (env_example ⟨false, [], 0⟩) srv_example
      (frame_example 0 0 0 2 7 [1, 2]) (by decide)).2.2 (by decide)).1⟩

/-- C3: a complete frame whose correlation id matches no pending request is
consumed whole (exactly 24 + bodylen bytes) and nothing else happens: no call
is made, channel and pipeline are unchanged, and the result is
`PKT_READ_COMPLETE`. The receive buffer holds fewer than 2^32 bytes, its
count being an `unsigned`. -/
theorem try_read_unmatched_frame (env : Env) (srv : Server) (ior : List Nat)
    (hc : 24 + (MemcachedResponse.read ior).bodylen ≤ ior.length)
    (hlen : ior.length < 2 ^ 32)
    (hnone : mcreq_pipeline_find srv.requests (MemcachedResponse.read ior).opaq = none) :
    try_read env srv ior =
        ⟨ReadState.PKT_READ_COMPLETE, srv,
          ior.drop (24 + (MemcachedResponse.read ior).bodylen), []⟩
    ∧ (try_read env srv ior).ior.length + (24 + (MemcachedResponse.read ior).bodylen)
        = ior.length := by
  have key : try_read env srv ior =
      ⟨ReadState.PKT_READ_COMPLETE, srv,
        ior.drop (24 + (MemcachedResponse.read ior).bodylen), []⟩ := by
    have hw : (24 + (MemcachedResponse.read ior).bodylen) % 2 ^ 32
        = 24 + (MemcachedResponse.read ior).bodylen := Nat.mod_eq_of_lt (by omega)
    by_cases hs : (MemcachedResponse.read ior).opcode = PROTOCOL_BINARY_CMD_STAT
        ∧ (MemcachedResponse.read ior).keylen ≠ 0
    · rw [try_read_complete_stat env srv ior hc hs, hnone, hw]
    · rw [try_read_complete_last env srv ior hc hs, hnone, hw]
  refine ⟨key, ?_⟩
  rw [key]
  simp only [List.length_drop]
  omega

/-- Witness of C3: a complete reply for correlation id 9, which is not pending. -/
theorem try_read_unmatched_frame_witness :
    (24 + (MemcachedResponse.read (frame_example 0 0 0 2 9 [1, 2])).bodylen
        ≤ (frame_example 0 0 0 2 9 [1, 2]).length
      ∧ (frame_example 0 0 0 2 9 [1, 2]).length < 2 ^ 32
      ∧ mcreq_pipeline_find srv_example.requests
          (MemcachedResponse.read (frame_example 0 0 0 2 9 [1, 2])).opaq = none)
    ∧ try_read (env_example ⟨false, [], 0⟩) srv_example (frame_example 0 0 0 2 9 [1, 2])
        = ⟨ReadState.PKT_READ_COMPLETE, srv_example, [], []⟩ :=
  ⟨⟨by decide, by decide, by decide⟩,
    (try_read_unmatched_frame (env_example ⟨false, [], 0⟩) srv_example
      (frame_example 0 0 0 2 9 [1, 2]) (by decide) (by decide) (by decide)).1⟩

end mcserver

namespace mcserver

open lcb lcb.lcb_error_t

/-! ## Redirect responses -/

theorem clear_state_flags_cleared (p : mc_PACKET) :
    (clear_state_flags p).flags &&& MCREQ_STATE_FLAGS = 0 := by
  show (p.flags &&& (0xFFFF ^^^ MCREQ_STATE_FLAGS)) &&& MCREQ_STATE_FLAGS = 0
  rw [Nat.land_assoc]
  have h : (0xFFFF ^^^ MCREQ_STATE_FLAGS) &&& MCREQ_STATE_FLAGS = 0 := by decide
  rw [h]
  exact Nat.and_zero _

theorem handle_nmv_fst (env : Env) (srv : Server) (r : MemcachedResponse) (p : mc_PACKET) :
    (handle_nmv env srv r p).1 = env.lcb_should_retry p LCB_NOT_MY_VBUCKET := by
  unfold handle_nmv
  simp only []
  cases env.lcb_should_retry p LCB_NOT_MY_VBUCKET <;> simp

theorem handle_nmv_requeued (env : Env) (srv : Server) (r : MemcachedResponse) (p : mc_PACKET) :
    (handle_nmv env srv r p).2.filterMap Action.requeued?
      = if env.lcb_should_retry p LCB_NOT_MY_VBUCKET = true then
          [clear_state_flags (env.mcreq_renew_packet p)]
        else [] := by
  unfold handle_nmv
  simp only []
  cases env.lcb_should_retry p LCB_NOT_MY_VBUCKET <;> split_ifs <;>
    first
    | contradiction
    | simp [Action.requeued?]

theorem handle_nmv_bootstrap_eq (env : Env) (srv : Server) (r : MemcachedResponse) (p : mc_PACKET) :
    (handle_nmv env srv r p).2.filterMap Action.refresh?
      = if r.bodylen ≠ 0 ∧ env.cccp_enabled = true ∧ env.cccp_update r.value = LCB_SUCCESS then []
        else [if env.cur_origin = Method.CLCONFIG_CCCP then BS_REFRESH_THROTTLE
              else BS_REFRESH_ALWAYS] := by
  unfold handle_nmv
  by_cases h1 : r.bodylen = 0 <;> by_cases h2 : env.cccp_enabled = true <;>
    by_cases h3 : env.cccp_update r.value = LCB_SUCCESS <;>
    by_cases h4 : env.cur_origin = Method.CLCONFIG_CCCP <;>
    cases h5 : env.lcb_should_retry p LCB_NOT_MY_VBUCKET <;>
    simp [h1, h2, h3, h4, h5, Action.refresh?]

/-- The calls of the found part of `try_read` on a redirect status. -/
theorem try_read_found_nmv (env : Env) (srv1 : Server) (ior : List Nat)
    (m : MemcachedResponse) (is_last : Bool) (req : mc_PACKET)
    (hst : m.status = PROTOCOL_BINARY_RESPONSE_NOT_MY_VBUCKET) :
    (try_read_found env srv1 ior m is_last req).effects =
      (if (handle_nmv env srv1 (DO_ASSIGN_PAYLOAD ior m).2 req).1 = false then
        (handle_nmv env srv1 (DO_ASSIGN_PAYLOAD ior m).2 req).2
          ++ [Action.mcreq_dispatch_response req (DO_ASSIGN_PAYLOAD ior m).2 LCB_NOT_MY_VBUCKET]
      else (handle_nmv env srv1 (DO_ASSIGN_PAYLOAD ior m).2 req).2) ++ GT_DONE is_last req := by
  have hcond : is_fastpath_error m.status = false
      ∧ m.status = PROTOCOL_BINARY_RESPONSE_NOT_MY_VBUCKET := ⟨by rw [hst]; decide, hst⟩
  unfold try_read_found
  simp only []
  rw [if_pos hcond]

theorem GT_DONE_requeued (b : Bool) (p : mc_PACKET) :
    (GT_DONE b p).filterMap Action.requeued? = [] := by
  cases b <;> simp [GT_DONE, Action.requeued?]

theorem GT_DONE_delivery (b : Bool) (p : mc_PACKET) :
    (GT_DONE b p).filterMap Action.delivery? = [] := by
  cases b <;> simp [GT_DONE, Action.delivery?]

theorem GT_DONE_refresh (b : Bool) (p : mc_PACKET) :
    (GT_DONE b p).filterMap Action.refresh? = [] := by
  cases b <;> simp [GT_DONE, Action.refresh?]

theorem GT_DONE_senderr (b : Bool) (p : mc_PACKET) :
    (GT_DONE b p).filterMap Action.senderr? = [] := by
  cases b <;> simp [GT_DONE, Action.senderr?]

theorem DO_ASSIGN_PAYLOAD_bodylen (ior : List Nat) (m : MemcachedResponse) :
    (DO_ASSIGN_PAYLOAD ior m).2.bodylen = m.bodylen := by
  unfold DO_ASSIGN_PAYLOAD
  simp only []
  split_ifs <;> rfl

/-- What the found part of `try_read` requeues, delivers and refreshes on a
redirect status with an empty body. -/
theorem try_read_found_nmv_empty (env : Env) (srv1 : Server) (ior : List Nat)
    (m : MemcachedResponse) (is_last : Bool) (req : mc_PACKET)
    (hst : m.status = PROTOCOL_BINARY_RESPONSE_NOT_MY_VBUCKET) (hb : m.bodylen = 0) :
    (try_read_found env srv1 ior m is_last req).rdstate = ReadState.PKT_READ_COMPLETE
    ∧ (try_read_found env srv1 ior m is_last req).effects.filterMap Action.refresh?
        = [if env.cur_origin = Method.CLCONFIG_CCCP then BS_REFRESH_THROTTLE
           else BS_REFRESH_ALWAYS]
    ∧ (env.lcb_should_retry req LCB_NOT_MY_VBUCKET = true →
        (try_read_found env srv1 ior m is_last req).effects.filterMap Action.requeued?
            = [clear_state_flags (env.mcreq_renew_packet req)]
        ∧ (try_read_found env srv1 ior m is_last req).effects.filterMap Action.delivery? = [])
    ∧ (env.lcb_should_retry req LCB_NOT_MY_VBUCKET = false →
        (try_read_found env srv1 ior m is_last req).effects.filterMap Action.requeued? = []
        ∧ (try_read_found env srv1 ior m is_last req).effects.filterMap Action.delivery?
            = [(req, LCB_NOT_MY_VBUCKET)]) := by
  have hcond : is_fastpath_error m.status = false
      ∧ m.status = PROTOCOL_BINARY_RESPONSE_NOT_MY_VBUCKET := ⟨by rw [hst]; decide, hst⟩
  refine ⟨?_, ?_, ?_, ?_⟩
  · unfold try_read_found
    simp only []
    rw [if_pos hcond]
  · rw [try_read_found_nmv env srv1 ior m is_last req hst, handle_nmv_fst]
    have hb2 : (DO_ASSIGN_PAYLOAD ior m).2.bodylen = 0 := by
      rw [DO_ASSIGN_PAYLOAD_bodylen]; exact hb
    cases env.lcb_should_retry req LCB_NOT_MY_VBUCKET <;>
      simp [handle_nmv_bootstrap_eq, GT_DONE_refresh, hb2, Action.refresh?]
  · intro hr
    rw [try_read_found_nmv env srv1 ior m is_last req hst, handle_nmv_fst, hr]
    simp [handle_nmv_requeued, handle_nmv_delivery, GT_DONE_requeued, GT_DONE_delivery, hr]
  · intro hr
    rw [try_read_found_nmv env srv1 ior m is_last req hst, handle_nmv_fst, hr]
    simp [handle_nmv_requeued, handle_nmv_delivery, GT_DONE_requeued, GT_DONE_delivery, hr,
      Action.requeued?, Action.delivery?]

/-- C4 (as amended): on a redirect response with an empty body for a pending
request, `try_read` does not consult the distribution mode of the cluster.
One topology refresh is requested. When `lcb_should_retry` accepts the
request for `LCB_NOT_MY_VBUCKET`, its clone with the state flags cleared is
added to the retry queue and nothing is delivered; otherwise nothing is
requeued and the same request is delivered with `LCB_NOT_MY_VBUCKET`. -/
theorem try_read_nmv_empty_body (env : Env) (srv : Server) (ior : List Nat) (req : mc_PACKET)
    (hc : 24 + (MemcachedResponse.read ior).bodylen ≤ ior.length)
    (hst : (MemcachedResponse.read ior).status = PROTOCOL_BINARY_RESPONSE_NOT_MY_VBUCKET)
    (hb : (MemcachedResponse.read ior).bodylen = 0)
    (hf : mcreq_pipeline_find srv.requests (MemcachedResponse.read ior).opaq = some req) :
    (∀ d, try_read { env with distmode := d } srv ior = try_read env srv ior)
    ∧ (try_read env srv ior).rdstate = ReadState.PKT_READ_COMPLETE
    ∧ (try_read env srv ior).effects.filterMap Action.refresh?
        = [if env.cur_origin = Method.CLCONFIG_CCCP then BS_REFRESH_THROTTLE
           else BS_REFRESH_ALWAYS]
    ∧ (env.lcb_should_retry req LCB_NOT_MY_VBUCKET = true →
        (try_read env srv ior).effects.filterMap Action.requeued?
            = [clear_state_flags (env.mcreq_renew_packet req)]
        ∧ (clear_state_flags (env.mcreq_renew_packet req)).flags &&& MCREQ_STATE_FLAGS = 0
        ∧ (try_read env srv ior).effects.filterMap Action.delivery? = [])
    ∧ (env.lcb_should_retry req LCB_NOT_MY_VBUCKET = false →
        (try_read env srv ior).effects.filterMap Action.requeued? = []
        ∧ (try_read env srv ior).effects.filterMap Action.delivery?
            = [(req, LCB_NOT_MY_VBUCKET)]) := by
  refine ⟨fun d => rfl, ?_⟩
  by_cases hs : (MemcachedResponse.read ior).opcode = PROTOCOL_BINARY_CMD_STAT
      ∧ (MemcachedResponse.read ior).keylen ≠ 0
  · rw [try_read_complete_stat env srv ior hc hs, hf]
    simp only []
    have h := try_read_found_nmv_empty env srv ior (MemcachedResponse.read ior) false req hst hb
    exact ⟨h.1, h.2.1, fun hr => ⟨(h.2.2.1 hr).1, clear_state_flags_cleared _, (h.2.2.1 hr).2⟩,
      h.2.2.2⟩
  · rw [try_read_complete_last env srv ior hc hs, hf]
    simp only []
    have h := try_read_found_nmv_empty env
      { srv with requests :=
          (mcreq_pipeline_remove srv.requests (MemcachedResponse.read ior).opaq).2 }
      ior (MemcachedResponse.read ior) true req hst hb
    exact ⟨h.1, h.2.1, fun hr => ⟨(h.2.2.1 hr).1, clear_state_flags_cleared _, (h.2.2.1 hr).2⟩,
      h.2.2.2⟩

/-- Witness of C4 (as amended): a body-less redirect for the pending request 7. -/
theorem try_read_nmv_empty_body_witness :
    (24 + (MemcachedResponse.read (frame_example 0 0 7 0 7 [])).bodylen
        ≤ (frame_example 0 0 7 0 7 []).length
      ∧ (MemcachedResponse.read (frame_example 0 0 7 0 7 [])).status
          = PROTOCOL_BINARY_RESPONSE_NOT_MY_VBUCKET
      ∧ (MemcachedResponse.read (frame_example 0 0 7 0 7 [])).bodylen = 0
      ∧ mcreq_pipeline_find srv_example.requests
          (MemcachedResponse.read (frame_example 0 0 7 0 7 [])).opaq = some pkt_example)
    ∧ (try_read (env_example ⟨false, [], 0⟩) srv_example
        (frame_example 0 0 7 0 7 [])).rdstate = ReadState.PKT_READ_COMPLETE :=
  ⟨⟨by decide, by decide, by decide, by decide⟩,
    (try_read_nmv_empty_body (env_example ⟨false, [], 0⟩) srv_example
      (frame_example 0 0 7 0 7 []) pkt_example
      (by decide) (by decide) (by decide) (by decide)).2.1⟩

/-- Counterexample to C4 as stated: in a vbucket-distributed cluster whose
retry policy rejects the request, the body-less redirect is not requeued but
delivered, with `LCB_NOT_MY_VBUCKET` (not `LCB_MAP_CHANGED`); in a
ketama-distributed (memcached bucket) cluster whose retry policy accepts the
request, it is requeued and nothing is delivered. -/
theorem try_read_nmv_counterexample :
    ((try_read { env_example ⟨false, [], 0⟩ with lcb_should_retry := fun _ _ => false }
        srv_example (frame_example 0 0 7 0 7 [])).effects.filterMap Action.requeued? = []
      ∧ (try_read { env_example ⟨false, [], 0⟩ with lcb_should_retry := fun _ _ => false }
          srv_example (frame_example 0 0 7 0 7 [])).effects.filterMap Action.delivery?
        = [(pkt_example, LCB_NOT_MY_VBUCKET)]
      ∧ LCB_NOT_MY_VBUCKET ≠ LCB_MAP_CHANGED)
    ∧ ((try_read { env_example ⟨false, [], 0⟩ with
            distmode := lcbvb_DISTMODE.LCBVB_DIST_KETAMA }
          srv_example (frame_example 0 0 7 0 7 [])).effects.filterMap Action.requeued?
        = [pkt_example]
      ∧ (try_read { env_example ⟨false, [], 0⟩ with
            distmode := lcbvb_DISTMODE.LCBVB_DIST_KETAMA }
          srv_example (frame_example 0 0 7 0 7 [])).effects.filterMap Action.delivery? = []) := by
  decide

/-- C5 (as amended): `handle_nmv` requests no topology refresh when the
redirect carried a body, CCCP is enabled and the direct update succeeded, and
exactly one otherwise; that refresh is throttled exactly when the current
topology's origin is the CCCP provider and unconditional for every other
origin, the HTTP provider included. -/
theorem handle_nmv_refresh (env : Env) (srv : Server) (resinfo : MemcachedResponse)
    (oldpkt : mc_PACKET) :
    ((resinfo.bodylen ≠ 0 ∧ env.cccp_enabled = true
        ∧ env.cccp_update resinfo.value = LCB_SUCCESS) →
      (handle_nmv env srv resinfo oldpkt).2.filterMap Action.refresh? = [])
    ∧ (¬ (resinfo.bodylen ≠ 0 ∧ env.cccp_enabled = true
        ∧ env.cccp_update resinfo.value = LCB_SUCCESS) →
      (env.cur_origin = Method.CLCONFIG_CCCP →
        (handle_nmv env srv resinfo oldpkt).2.filterMap Action.refresh? = [BS_REFRESH_THROTTLE])
      ∧ (env.cur_origin ≠ Method.CLCONFIG_CCCP →
        (handle_nmv env srv resinfo oldpkt).2.filterMap Action.refresh? = [BS_REFRESH_ALWAYS]))
    ∧ BS_REFRESH_THROTTLE ≠ BS_REFRESH_ALWAYS := by
  refine ⟨?_, ?_, by decide⟩
  · intro h
    rw [handle_nmv_bootstrap_eq, if_pos h]
  · intro h
    rw [handle_nmv_bootstrap_eq, if_neg h]
    exact ⟨fun ho => by rw [if_pos ho], fun ho => by rw [if_neg ho]⟩

/-- Witness of C5 (as amended): a body-less redirect under a CCCP-origin
topology asks for one throttled refresh. -/
theorem handle_nmv_refresh_witness :
    (handle_nmv { env_example ⟨false, [], 0⟩ with cur_origin := Method.CLCONFIG_CCCP }
        srv_example (MemcachedResponse.read (frame_example 0 0 7 0 7 []))
        pkt_example).2.filterMap Action.refresh? = [BS_REFRESH_THROTTLE] :=
  ((handle_nmv_refresh { env_example ⟨false, [], 0⟩ with cur_origin := Method.CLCONFIG_CCCP }
      srv_example (MemcachedResponse.read (frame_example 0 0 7 0 7 []))
      pkt_example).2.1 (by decide)).1 rfl

/-- Counterexample to C5 as stated: with a topology that came from the
configuration file (neither HTTP nor CCCP), the refresh after a body-less
redirect is unconditional, not throttled. -/
theorem handle_nmv_refresh_counterexample :
    (handle_nmv { env_example ⟨false, [], 0⟩ with cur_origin := Method.CLCONFIG_FILE }
        srv_example (MemcachedResponse.read (frame_example 0 0 7 0 7 []))
        pkt_example).2.filterMap Action.refresh? = [BS_REFRESH_ALWAYS]
    ∧ BS_REFRESH_ALWAYS ≠ BS_REFRESH_THROTTLE
    ∧ Method.CLCONFIG_FILE ≠ Method.CLCONFIG_HTTP := by
  decide

end mcserver

namespace mcserver

open lcb lcb.lcb_error_t

/-! ## The error map -/

/-- With the error map loaded and in use, on a valid entry without special
handling, `handle_unknown_error` yields: as return value the retry bit when
the entry has auto-retry and the disconnect bit when it has
connection-invalidated; and as calls the throttled refresh (fetch-config), the
retry-queue addition (auto-retry) and the forced close (connection-invalidated),
in that order. -/
theorem handle_unknown_error_eq (env : Env) (request : mc_PACKET) (mcresp : MemcachedResponse)
    (newerr : lcb_error_t)
    (hl : env.errmap_isLoaded = true) (hu : env.use_errmap = true)
    (hv : (env.errmap_getError mcresp.status).isValid = true)
    (hsp : (env.errmap_getError mcresp.status).hasAttribute ErrorAttribute.SPECIAL_HANDLING
      = false) :
    handle_unknown_error env request mcresp newerr =
      ⟨(if (env.errmap_getError mcresp.status).hasAttribute ErrorAttribute.AUTO_RETRY = true
          then ERRMAP_HANDLE_RETRY else 0)
        ||| (if (env.errmap_getError mcresp.status).hasAttribute
              ErrorAttribute.CONN_STATE_INVALIDATED = true
          then ERRMAP_HANDLE_DISCONN else 0),
       (if (env.errmap_getError mcresp.status).hasAttribute
              ErrorAttribute.CONN_STATE_INVALIDATED = true
          then (if mapped_error (env.errmap_getError mcresp.status) newerr ≠ LCB_SUCCESS
            then LCB_ERROR else mapped_error (env.errmap_getError mcresp.status) newerr)
          else mapped_error (env.errmap_getError mcresp.status) newerr),
       (if (env.errmap_getError mcresp.status).hasAttribute ErrorAttribute.FETCH_CONFIG = true
          then [Action.bootstrap BS_REFRESH_THROTTLE] else [])
        ++ (if (env.errmap_getError mcresp.status).hasAttribute ErrorAttribute.AUTO_RETRY = true
          then [Action.retryq_add (clear_state_flags (env.mcreq_renew_packet request))
            (if mapped_error (env.errmap_getError mcresp.status) newerr ≠ LCB_SUCCESS
              then mapped_error (env.errmap_getError mcresp.status) newerr else LCB_ERROR)
            (some (env.errmap_getError mcresp.status).getRetrySpec)] else [])
        ++ (if (env.errmap_getError mcresp.status).hasAttribute
              ErrorAttribute.CONN_STATE_INVALIDATED = true
          then [Action.lcbio_ctx_senderr
            (if mapped_error (env.errmap_getError mcresp.status) newerr ≠ LCB_SUCCESS
              then LCB_ERROR else mapped_error (env.errmap_getError mcresp.status) newerr)]
          else [])⟩ := by
  unfold handle_unknown_error
  simp only [hl, hu, hv, hsp, Bool.true_eq_false, or_self, if_false]
  cases (env.errmap_getError mcresp.status).hasAttribute ErrorAttribute.AUTO_RETRY <;>
    cases (env.errmap_getError mcresp.status).hasAttribute
      ErrorAttribute.CONN_STATE_INVALIDATED <;>
    simp [ERRMAP_HANDLE_RETRY, ERRMAP_HANDLE_DISCONN]

/-- C6 (the code at the failing inputs): for a valid entry with the temporary
and connection-invalidated attributes the mapped error is `LCB_GENERIC_TMPERR`
but the channel is closed with `LCB_ERROR`; for a valid entry with only the
connection-invalidated attribute no error was mapped and the channel is closed
with `LCB_SUCCESS`. -/
theorem handle_unknown_error_senderr_inverted :
    (mapped_error ⟨true, [ErrorAttribute.TEMPORARY, ErrorAttribute.CONN_STATE_INVALIDATED], 0⟩
        LCB_SUCCESS = LCB_GENERIC_TMPERR
      ∧ (handle_unknown_error
          (env_example ⟨true, [ErrorAttribute.TEMPORARY, ErrorAttribute.CONN_STATE_INVALIDATED], 0⟩)
          pkt_example (MemcachedResponse.read (frame_example 0 0 0x88 0 7 []))
          LCB_SUCCESS).effects.filterMap Action.senderr? = [LCB_ERROR])
    ∧ (mapped_error ⟨true, [ErrorAttribute.CONN_STATE_INVALIDATED], 0⟩ LCB_SUCCESS = LCB_SUCCESS
      ∧ (handle_unknown_error
          (env_example ⟨true, [ErrorAttribute.CONN_STATE_INVALIDATED], 0⟩)
          pkt_example (MemcachedResponse.read (frame_example 0 0 0x88 0 7 []))
          LCB_SUCCESS).effects.filterMap Action.senderr? = [LCB_SUCCESS]) := by
  decide

/-- The found part of `try_read` on a status that is neither fast-path nor the
redirect, when `handle_unknown_error` asks for retry and disconnect. -/
theorem try_read_found_retry_disconn (env : Env) (srv1 : Server) (ior : List Nat)
    (m : MemcachedResponse) (is_last : Bool) (req : mc_PACKET)
    (hfp : is_fastpath_error m.status = false)
    (hnmv : m.status ≠ PROTOCOL_BINARY_RESPONSE_NOT_MY_VBUCKET)
    (hrv : (handle_unknown_error env req m LCB_SUCCESS).rv
      = ERRMAP_HANDLE_RETRY ||| ERRMAP_HANDLE_DISCONN) :
    try_read_found env srv1 ior m is_last req =
      ⟨ReadState.PKT_READ_ABORT, srv1, ior.drop (24 + m.bodylen),
        (handle_unknown_error env req m LCB_SUCCESS).effects ++ GT_DONE is_last req⟩ := by
  have h1 : ¬ (is_fastpath_error m.status = false
      ∧ m.status = PROTOCOL_BINARY_RESPONSE_NOT_MY_VBUCKET) := fun h => hnmv h.2
  have h2 : ¬ (is_fastpath_error m.status = true) := by rw [hfp]; decide
  unfold try_read_found
  simp only []
  rw [if_neg h1, if_neg h2]
  have h3 : is_fastpath_error m.status = false
      ∧ (handle_unknown_error env req m LCB_SUCCESS).rv ≠ ERRMAP_HANDLE_CONTINUE := by
    refine ⟨hfp, ?_⟩
    rw [hrv]; decide
  rw [if_pos h3, hrv]
  have h4 : ¬ ((ERRMAP_HANDLE_RETRY ||| ERRMAP_HANDLE_DISCONN) &&& ERRMAP_HANDLE_RETRY = 0) := by
    decide
  have h5 : (ERRMAP_HANDLE_RETRY ||| ERRMAP_HANDLE_DISCONN) &&& ERRMAP_HANDLE_DISCONN ≠ 0 := by
    decide
  rw [if_neg h4, if_pos h5, DO_SWALLOW_ASSIGN]

/-- C7 (as amended): when a response with a non-fast-path, non-redirect status
arrives for a pending request, the error map is loaded, its use is enabled
(`use_errmap`), and the entry of that status is valid, without special
handling, with auto-retry and connection-invalidated, then `try_read` adds the
clone of the request with state flags cleared to the retry queue exactly once,
delivers nothing, signals one forced close on the channel and returns
`PKT_READ_ABORT`. -/
theorem try_read_auto_retry_invalidated (env : Env) (srv : Server) (ior : List Nat)
    (req : mc_PACKET)
    (hc : 24 + (MemcachedResponse.read ior).bodylen ≤ ior.length)
    (hfp : is_fastpath_error (MemcachedResponse.read ior).status = false)
    (hnmv : (MemcachedResponse.read ior).status ≠ PROTOCOL_BINARY_RESPONSE_NOT_MY_VBUCKET)
    (hl : env.errmap_isLoaded = true) (hu : env.use_errmap = true)
    (hv : (env.errmap_getError (MemcachedResponse.read ior).status).isValid = true)
    (hsp : (env.errmap_getError (MemcachedResponse.read ior).status).hasAttribute
      ErrorAttribute.SPECIAL_HANDLING = false)
    (har : (env.errmap_getError (MemcachedResponse.read ior).status).hasAttribute
      ErrorAttribute.AUTO_RETRY = true)
    (hci : (env.errmap_getError (MemcachedResponse.read ior).status).hasAttribute
      ErrorAttribute.CONN_STATE_INVALIDATED = true)
    (hf : mcreq_pipeline_find srv.requests (MemcachedResponse.read ior).opaq = some req) :
    (try_read env srv ior).rdstate = ReadState.PKT_READ_ABORT
    ∧ (try_read env srv ior).effects.filterMap Action.requeued?
        = [clear_state_flags (env.mcreq_renew_packet req)]
    ∧ (clear_state_flags (env.mcreq_renew_packet req)).flags &&& MCREQ_STATE_FLAGS = 0
    ∧ (try_read env srv ior).effects.filterMap Action.delivery? = []
    ∧ ((try_read env srv ior).effects.filterMap Action.senderr?).length = 1 := by
  have heq := handle_unknown_error_eq env req (MemcachedResponse.read ior) LCB_SUCCESS hl hu hv hsp
  rw [har, hci] at heq
  simp only [if_true] at heq
  have hrv : (handle_unknown_error env req (MemcachedResponse.read ior) LCB_SUCCESS).rv
      = ERRMAP_HANDLE_RETRY ||| ERRMAP_HANDLE_DISCONN := by rw [heq]
  have key : ∀ (srv1 : Server) (is_last : Bool),
      (try_read_found env srv1 ior (MemcachedResponse.read ior) is_last req).rdstate
        = ReadState.PKT_READ_ABORT
      ∧ (try_read_found env srv1 ior (MemcachedResponse.read ior) is_last
          req).effects.filterMap Action.requeued?
        = [clear_state_flags (env.mcreq_renew_packet req)]
      ∧ (clear_state_flags (env.mcreq_renew_packet req)).flags &&& MCREQ_STATE_FLAGS = 0
      ∧ (try_read_found env srv1 ior (MemcachedResponse.read ior) is_last
          req).effects.filterMap Action.delivery? = []
      ∧ ((try_read_found env srv1 ior (MemcachedResponse.read ior) is_last
          req).effects.filterMap Action.senderr?).length = 1 := by
    intro srv1 is_last
    rw [try_read_found_retry_disconn env srv1 ior _ is_last req hfp hnmv hrv, heq]
    refine ⟨rfl, ?_, clear_state_flags_cleared _, ?_, ?_⟩
    · simp only [List.filterMap_append, GT_DONE_requeued, List.append_nil]
      split_ifs <;> simp [Action.requeued?]
    · simp only [List.filterMap_append, GT_DONE_delivery, List.append_nil]
      split_ifs <;> simp [Action.delivery?]
    · simp only [List.filterMap_append, GT_DONE_senderr, List.append_nil]
      split_ifs <;> simp [Action.senderr?]
  by_cases hs : (MemcachedResponse.read ior).opcode = PROTOCOL_BINARY_CMD_STAT
      ∧ (MemcachedResponse.read ior).keylen ≠ 0
  · rw [try_read_complete_stat env srv ior hc hs, hf]
    exact key _ _
  · rw [try_read_complete_last env srv ior hc hs, hf]
    exact key _ _

/-- Witness of C7 (as amended): status 0x88 flagged auto-retry and
connection-invalidated, for the pending request 7. -/
theorem try_read_auto_retry_invalidated_witness :
    (24 + (MemcachedResponse.read (frame_example 0 0 0x88 0 7 [])).bodylen
        ≤ (frame_example 0 0 0x88 0 7 []).length
      ∧ is_fastpath_error (MemcachedResponse.read (frame_example 0 0 0x88 0 7 [])).status = false
      ∧ (MemcachedResponse.read (frame_example 0 0 0x88 0 7 [])).status
          ≠ PROTOCOL_BINARY_RESPONSE_NOT_MY_VBUCKET
      ∧ mcreq_pipeline_find srv_example.requests
          (MemcachedResponse.read (frame_example 0 0 0x88 0 7 [])).opaq = some pkt_example)
    ∧ (try_read
        (env_example ⟨true, [ErrorAttribute.AUTO_RETRY, ErrorAttribute.CONN_STATE_INVALIDATED], 0⟩)
        srv_example (frame_example 0 0 0x88 0 7 [])).rdstate = ReadState.PKT_READ_ABORT :=
  ⟨⟨by decide, by decide, by decide, by decide⟩,
    (try_read_auto_retry_invalidated
      (env_example ⟨true, [ErrorAttribute.AUTO_RETRY, ErrorAttribute.CONN_STATE_INVALIDATED], 0⟩)
      srv_example (frame_example 0 0 0x88 0 7 []) pkt_example
      (by decide) (by decide) (by decide) rfl rfl (by decide) (by decide) (by decide)
      (by decide) (by decide)).1⟩

/-- Counterexample to C7 as stated: the error map is loaded and flags status
0x88 with auto-retry and connection-invalidated, but its use is disabled
(`use_errmap` is false): the request is not requeued, the response is
delivered, the channel is not closed and the result is `PKT_READ_COMPLETE`. -/
theorem try_read_auto_retry_counterexample :
    ({ env_example ⟨true, [ErrorAttribute.AUTO_RETRY, ErrorAttribute.CONN_STATE_INVALIDATED], 0⟩
        with use_errmap := false }).errmap_isLoaded = true
    ∧ (try_read
        { env_example ⟨true, [ErrorAttribute.AUTO_RETRY, ErrorAttribute.CONN_STATE_INVALIDATED], 0⟩
          with use_errmap := false }
        srv_example (frame_example 0 0 0x88 0 7 [])).rdstate = ReadState.PKT_READ_COMPLETE
    ∧ (try_read
        { env_example ⟨true, [ErrorAttribute.AUTO_RETRY, ErrorAttribute.CONN_STATE_INVALIDATED], 0⟩
          with use_errmap := false }
        srv_example (frame_example 0 0 0x88 0 7 [])).effects.filterMap Action.requeued? = []
    ∧ (try_read
        { env_example ⟨true, [ErrorAttribute.AUTO_RETRY, ErrorAttribute.CONN_STATE_INVALIDATED], 0⟩
          with use_errmap := false }
        srv_example (frame_example 0 0 0x88 0 7 [])).effects.filterMap Action.delivery?
      = [(pkt_example, LCB_SUCCESS)]
    ∧ (try_read
        { env_example ⟨true, [ErrorAttribute.AUTO_RETRY, ErrorAttribute.CONN_STATE_INVALIDATED], 0⟩
          with use_errmap := false }
        srv_example (frame_example 0 0 0x88 0 7 [])).effects.filterMap Action.senderr? = [] := by
  decide

end mcserver

namespace mcserver

open lcb lcb.lcb_error_t

/-- Without the connection-invalidated attribute, the value `handle_unknown_error`
leaves in `newerr` is the mapped error. -/
theorem handle_unknown_error_newerr (env : Env) (request : mc_PACKET) (mcresp : MemcachedResponse)
    (newerr : lcb_error_t)
    (hl : env.errmap_isLoaded = true) (hu : env.use_errmap = true)
    (hv : (env.errmap_getError mcresp.status).isValid = true)
    (hsp : (env.errmap_getError mcresp.status).hasAttribute ErrorAttribute.SPECIAL_HANDLING
      = false)
    (hci : (env.errmap_getError mcresp.status).hasAttribute
      ErrorAttribute.CONN_STATE_INVALIDATED = false) :
    (handle_unknown_error env request mcresp newerr).newerr
      = mapped_error (env.errmap_getError mcresp.status) newerr := by
  rw [handle_unknown_error_eq env request mcresp newerr hl hu hv hsp, hci]
  simp

/-- C8 (as amended): among the temporary and constraint attributes the last
match wins: for every valid entry without special handling that has both the
temporary and the constraint attribute and not the auth attribute, the mapped
error is the constraint error `LCB_GENERIC_CONSTRAINT_ERR`, not the temporary
error; it is the value left in `newerr` when the entry does not invalidate the
connection. -/
theorem handle_unknown_error_temporary_constraint (env : Env) (request : mc_PACKET)
    (mcresp : MemcachedResponse) (newerr : lcb_error_t)
    (hl : env.errmap_isLoaded = true) (hu : env.use_errmap = true)
    (hv : (env.errmap_getError mcresp.status).isValid = true)
    (hsp : (env.errmap_getError mcresp.status).hasAttribute ErrorAttribute.SPECIAL_HANDLING
      = false)
    (_ht : (env.errmap_getError mcresp.status).hasAttribute ErrorAttribute.TEMPORARY = true)
    (hcf : (env.errmap_getError mcresp.status).hasAttribute ErrorAttribute.CONSTRAINT_FAILURE
      = true)
    (ha : (env.errmap_getError mcresp.status).hasAttribute ErrorAttribute.AUTH = false) :
    mapped_error (env.errmap_getError mcresp.status) newerr = LCB_GENERIC_CONSTRAINT_ERR
    ∧ ((env.errmap_getError mcresp.status).hasAttribute ErrorAttribute.CONN_STATE_INVALIDATED
        = false →
      (handle_unknown_error env request mcresp newerr).newerr = LCB_GENERIC_CONSTRAINT_ERR)
    ∧ LCB_GENERIC_CONSTRAINT_ERR ≠ LCB_GENERIC_TMPERR := by
  have hm : mapped_error (env.errmap_getError mcresp.status) newerr
      = LCB_GENERIC_CONSTRAINT_ERR := by
    unfold mapped_error
    simp [hcf, ha]
  refine ⟨hm, ?_, by decide⟩
  intro hci
  rw [handle_unknown_error_newerr env request mcresp newerr hl hu hv hsp hci, hm]

/-- Witness of C8 (as amended): an entry with the temporary and the constraint
attribute. -/
theorem handle_unknown_error_temporary_constraint_witness :
    ((env_example ⟨true, [ErrorAttribute.TEMPORARY, ErrorAttribute.CONSTRAINT_FAILURE], 0⟩
        ).errmap_isLoaded = true
      ∧ (env_example ⟨true, [ErrorAttribute.TEMPORARY, ErrorAttribute.CONSTRAINT_FAILURE], 0⟩
        ).use_errmap = true)
    ∧ mapped_error
        ((env_example ⟨true, [ErrorAttribute.TEMPORARY, ErrorAttribute.CONSTRAINT_FAILURE], 0⟩
          ).errmap_getError (MemcachedResponse.read (frame_example 0 0 0x88 0 7 [])).status)
        LCB_SUCCESS = LCB_GENERIC_CONSTRAINT_ERR :=
  ⟨⟨rfl, rfl⟩,
    (handle_unknown_error_temporary_constraint
      (env_example ⟨true, [ErrorAttribute.TEMPORARY, ErrorAttribute.CONSTRAINT_FAILURE], 0⟩)
      pkt_example (MemcachedResponse.read (frame_example 0 0 0x88 0 7 [])) LCB_SUCCESS
      rfl rfl (by decide) (by decide) (by decide) (by decide) (by decide)).1⟩

/-- Counterexample to C8 as stated: for a valid entry with the temporary and
the constraint attribute (and not auth) the mapped error, and the error the
response is delivered with, is `LCB_GENERIC_CONSTRAINT_ERR`, which is not
`LCB_GENERIC_TMPERR`. -/
theorem handle_unknown_error_first_match_counterexample :
    mapped_error ⟨true, [ErrorAttribute.TEMPORARY, ErrorAttribute.CONSTRAINT_FAILURE], 0⟩
        LCB_SUCCESS = LCB_GENERIC_CONSTRAINT_ERR
    ∧ (handle_unknown_error
        (env_example ⟨true, [ErrorAttribute.TEMPORARY, ErrorAttribute.CONSTRAINT_FAILURE], 0⟩)
        pkt_example (MemcachedResponse.read (frame_example 0 0 0x88 0 7 []))
        LCB_SUCCESS).newerr = LCB_GENERIC_CONSTRAINT_ERR
    ∧ (try_read
        (env_example ⟨true, [ErrorAttribute.TEMPORARY, ErrorAttribute.CONSTRAINT_FAILURE], 0⟩)
        srv_example (frame_example 0 0 0x88 0 7 [])).effects.filterMap Action.delivery?
      = [(pkt_example, LCB_GENERIC_CONSTRAINT_ERR)]
    ∧ LCB_GENERIC_CONSTRAINT_ERR ≠ LCB_GENERIC_TMPERR := by
  decide

/-- C9: for every valid entry without special handling looked up by
`handle_unknown_error`: with the auth attribute the mapped error is
`LCB_AUTH_ERROR` whatever else is present; the subdoc attribute yields
`LCB_GENERIC_SUBDOCERR` when none of temporary, constraint and auth is present
and the incoming value was `LCB_SUCCESS`; in every other case the mapped error
is the code already chosen from auth, constraint, temporary and the incoming
value, whether or not subdoc is present. That mapped error is the value left
in `newerr` when the entry does not invalidate the connection. -/
theorem handle_unknown_error_auth_subdoc (env : Env) (request : mc_PACKET)
    (mcresp : MemcachedResponse) (newerr : lcb_error_t)
    (hl : env.errmap_isLoaded = true) (hu : env.use_errmap = true)
    (hv : (env.errmap_getError mcresp.status).isValid = true)
    (hsp : (env.errmap_getError mcresp.status).hasAttribute ErrorAttribute.SPECIAL_HANDLING
      = false) :
    ((env.errmap_getError mcresp.status).hasAttribute ErrorAttribute.AUTH = true →
      mapped_error (env.errmap_getError mcresp.status) newerr = LCB_AUTH_ERROR)
    ∧ ((env.errmap_getError mcresp.status).hasAttribute ErrorAttribute.SUBDOC = true →
      (env.errmap_getError mcresp.status).hasAttribute ErrorAttribute.TEMPORARY = false →
      (env.errmap_getError mcresp.status).hasAttribute ErrorAttribute.CONSTRAINT_FAILURE = false →
      (env.errmap_getError mcresp.status).hasAttribute ErrorAttribute.AUTH = false →
      newerr = LCB_SUCCESS →
      mapped_error (env.errmap_getError mcresp.status) newerr = LCB_GENERIC_SUBDOCERR)
    ∧ (((env.errmap_getError mcresp.status).hasAttribute ErrorAttribute.TEMPORARY = true
        ∨ (env.errmap_getError mcresp.status).hasAttribute ErrorAttribute.CONSTRAINT_FAILURE = true
        ∨ (env.errmap_getError mcresp.status).hasAttribute ErrorAttribute.AUTH = true
        ∨ newerr ≠ LCB_SUCCESS) →
      mapped_error (env.errmap_getError mcresp.status) newerr =
        if (env.errmap_getError mcresp.status).hasAttribute ErrorAttribute.AUTH = true then
          LCB_AUTH_ERROR
        else if (env.errmap_getError mcresp.status).hasAttribute
            ErrorAttribute.CONSTRAINT_FAILURE = true then LCB_GENERIC_CONSTRAINT_ERR
        else if (env.errmap_getError mcresp.status).hasAttribute ErrorAttribute.TEMPORARY = true
          then LCB_GENERIC_TMPERR
        else newerr)
    ∧ ((env.errmap_getError mcresp.status).hasAttribute ErrorAttribute.CONN_STATE_INVALIDATED
        = false →
      (handle_unknown_error env request mcresp newerr).newerr
        = mapped_error (env.errmap_getError mcresp.status) newerr) := by
  refine ⟨?_, ?_, ?_, ?_⟩
  · intro ha
    unfold mapped_error
    simp [ha]
  · intro hs ht hcf ha hn
    unfold mapped_error
    simp [hs, ht, hcf, ha, hn]
  · intro h
    unfold mapped_error
    cases ha : (env.errmap_getError mcresp.status).hasAttribute ErrorAttribute.AUTH <;>
      cases hcf : (env.errmap_getError mcresp.status).hasAttribute
        ErrorAttribute.CONSTRAINT_FAILURE <;>
      cases ht : (env.errmap_getError mcresp.status).hasAttribute ErrorAttribute.TEMPORARY <;>
      simp_all
  · exact handle_unknown_error_newerr env request mcresp newerr hl hu hv hsp

/-- Witness of C9: an entry with the auth, temporary and subdoc attributes. -/
theorem handle_unknown_error_auth_subdoc_witness :
    ((env_example ⟨true, [ErrorAttribute.AUTH, ErrorAttribute.TEMPORARY,
        ErrorAttribute.SUBDOC], 0⟩).errmap_isLoaded = true
      ∧ (env_example ⟨true, [ErrorAttribute.AUTH, ErrorAttribute.TEMPORARY,
        ErrorAttribute.SUBDOC], 0⟩).use_errmap = true)
    ∧ mapped_error
        ((env_example ⟨true, [ErrorAttribute.AUTH, ErrorAttribute.TEMPORARY,
          ErrorAttribute.SUBDOC], 0⟩).errmap_getError
            (MemcachedResponse.read (frame_example 0 0 0x88 0 7 [])).status)
        LCB_SUCCESS = LCB_AUTH_ERROR :=
  ⟨⟨rfl, rfl⟩,
    (handle_unknown_error_auth_subdoc
      (env_example ⟨true, [ErrorAttribute.AUTH, ErrorAttribute.TEMPORARY,
        ErrorAttribute.SUBDOC], 0⟩)
      pkt_example (MemcachedResponse.read (frame_example 0 0 0x88 0 7 [])) LCB_SUCCESS
      rfl rfl (by decide) (by decide)).1 (by decide)⟩

end mcserver

namespace bc_http

open lcb lcb.lcb_error_t

/-! ## Lemmas on `strstr` -/

theorem strstr_length_le (needle : List Char) :
    ∀ (hay : List Char) (k : Nat), strstr hay needle = some k → k + needle.length ≤ hay.length := by
  intro hay
  induction hay with
  | nil =>
    intro k h
    simp only [strstr] at h
    split at h
    · rename_i he
      have : needle = [] := by simpa using he
      subst this
      cases h
      simp
    · cases h
  | cons c rest ih =>
    intro k h
    simp only [strstr] at h
    split at h
    · rename_i hp
      cases h
      have := (List.isPrefixOf_iff_prefix.mp hp).length_le
      simpa using this
    · cases hr : strstr rest needle with
      | none => simp [hr] at h
      | some k1 =>
        simp [hr] at h
        subst h
        have := ih k1 hr
        simp only [List.length_cons]
        omega

theorem strstr_append (needle : List Char) (tail : List Char) :
    ∀ (hay : List Char) (k : Nat), strstr hay needle = some k →
      strstr (hay ++ tail) needle = some k := by
  intro hay
  induction hay with
  | nil =>
    intro k h
    simp only [strstr] at h
    split at h
    · rename_i he
      have : needle = [] := by simpa using he
      subst this
      cases h
      cases tail <;> simp [strstr]
    · cases h
  | cons c rest ih =>
    intro k h
    simp only [strstr] at h
    split at h
    · rename_i hp
      cases h
      have hp2 : needle.isPrefixOf (c :: (rest ++ tail)) = true := by
        rw [List.isPrefixOf_iff_prefix] at hp ⊢
        exact hp.trans (List.prefix_append (c :: rest) tail)
      simp [strstr, hp2]
    · rename_i hp
      cases hr : strstr rest needle with
      | none => simp [hr] at h
      | some k1 =>
        simp [hr] at h
        subst h
        have hlen := strstr_length_le needle rest k1 hr
        have hp2 : ¬ needle.isPrefixOf (c :: (rest ++ tail)) = true := by
          intro hq
          apply hp
          rw [List.isPrefixOf_iff_prefix] at hq ⊢
          have h1 : needle <+: (c :: rest) ++ tail := hq
          have h2 : (c :: rest) <+: (c :: rest) ++ tail := List.prefix_append _ _
          exact List.prefix_of_prefix_length_le h1 h2 (by simp only [List.length_cons]; omega)
        simp [strstr, hp2, ih k1 hr]

end bc_http

namespace bc_http

open lcb lcb.lcb_error_t

/-! ## The body phase of `process_chunk` -/

/-- One call of `process_chunk` in the body phase of a bucket connection, when
the accumulated body has its first delimiter at offset `k` and the text before
it deserializes: that one document is parsed, the generation advances by one
and the body keeps what followed the delimiter. -/
theorem process_chunk_document (env : Env) (http : HttpProvider) (buf : List Char) (k : Nat)
    (hparse : env.lcbht_parse http.htp buf = { http.htp with body := http.htp.body ++ buf })
    (herr : http.htp.state &&& LCBHT_S_ERROR = 0)
    (hbody : http.htp.state &&& LCBHT_S_BODY ≠ 0)
    (hnext : http.try_nexturi = false)
    (hconn : env.conntype = LCB_TYPE_BUCKET)
    (hk : strstr (http.htp.body ++ buf) CONFIG_DELIMITER = some k)
    (hjson : env.lcbvb_load_json ((http.htp.body ++ buf).take k) = true) :
    process_chunk env http buf = some (LCB_SUCCESS,
      { http with
          last_parsed := some ⟨⟨(http.htp.body ++ buf).take k, none⟩, Method.CLCONFIG_HTTP⟩
          generation := (http.generation + 1) % 2 ^ 32
          htp := { http.htp with
            body := (http.htp.body ++ buf).drop (k + CONFIG_DELIMITER.length) } }, []) := by
  have hc : ¬ (LCB_TYPE_BUCKET = LCB_TYPE_CLUSTER) := by decide
  unfold process_chunk
  simp only [hparse, herr, hbody, hnext, hconn, hk, hjson, hc, Nat.xor_self, Nat.zero_and,
    ne_eq, not_true_eq_false, not_false_eq_true, if_true, if_false, Bool.false_eq_true,
    Bool.true_eq_false]

end bc_http

namespace bc_http

open lcb lcb.lcb_error_t

theorem take_document (doc tail : List Char) :
    (doc ++ CONFIG_DELIMITER ++ tail).take doc.length = doc := by
  rw [List.append_assoc, List.take_left]

theorem drop_document (doc tail : List Char) :
    (doc ++ CONFIG_DELIMITER ++ tail).drop (doc.length + CONFIG_DELIMITER.length) = tail := by
  have h : doc.length + CONFIG_DELIMITER.length = (doc ++ CONFIG_DELIMITER).length := by simp
  rw [h, List.drop_left]

theorem generation_step_twice (g : Nat) :
    ((g + 1) % 2 ^ 32 + 1) % 2 ^ 32 = (g + 2) % 2 ^ 32 := by
  omega

theorem generation_changed (g n : Nat) (h1 : 0 < n) (h2 : n < 2 ^ 32) :
    (g + n) % 2 ^ 32 ≠ g := by
  omega

/-! ## Claims on `read_common` -/

/-- C10 (as amended): on a bucket connection in the body phase of the
response, with nothing accumulated yet, `process_chunk` extracts at most one
document per buffer segment. When a read event delivers two valid documents,
each followed by the delimiter, as two segments, one notification fires, it
carries the second document (with the host of the connection substituted) and
the generation advances by 2 (modulo 2^32). When the same bytes arrive as a
single segment, one notification fires, it carries the first document, the
generation advances by 1 and the second document with its delimiter stays in
the body buffer. -/
theorem read_common_two_documents (env : Env) (http : HttpProvider) (host : lcb_host_t)
    (doc1 doc2 : List Char)
    (hparse : ∀ body buf, env.lcbht_parse ⟨http.htp.state, http.htp.status, body⟩ buf
      = ⟨http.htp.state, http.htp.status, body ++ buf⟩)
    (herr : http.htp.state &&& LCBHT_S_ERROR = 0)
    (hbody : http.htp.state &&& LCBHT_S_BODY ≠ 0)
    (hempty : http.htp.body = [])
    (hnext : http.try_nexturi = false)
    (hconn : env.conntype = LCB_TYPE_BUCKET)
    (hctx : http.ioctx = some host)
    (hd1 : strstr (doc1 ++ CONFIG_DELIMITER) CONFIG_DELIMITER = some doc1.length)
    (hd2 : strstr (doc2 ++ CONFIG_DELIMITER) CONFIG_DELIMITER = some doc2.length)
    (hj1 : env.lcbvb_load_json doc1 = true)
    (hj2 : env.lcbvb_load_json doc2 = true) :
    read_common env http [doc1 ++ CONFIG_DELIMITER, doc2 ++ CONFIG_DELIMITER]
        = some ({ http with
            io_timer := none
            current_config := some ⟨⟨doc2, some host.host⟩, Method.CLCONFIG_HTTP⟩
            last_parsed := some ⟨⟨doc2, some host.host⟩, Method.CLCONFIG_HTTP⟩
            generation := (http.generation + 2) % 2 ^ 32 },
          [Action.provider_got_config ⟨⟨doc2, some host.host⟩, Method.CLCONFIG_HTTP⟩,
            Action.lcbio_ctx_rwant 1, Action.lcbio_ctx_schedule])
    ∧ read_common env http [doc1 ++ CONFIG_DELIMITER ++ (doc2 ++ CONFIG_DELIMITER)]
        = some ({ http with
            io_timer := none
            current_config := some ⟨⟨doc1, some host.host⟩, Method.CLCONFIG_HTTP⟩
            last_parsed := some ⟨⟨doc1, some host.host⟩, Method.CLCONFIG_HTTP⟩
            generation := (http.generation + 1) % 2 ^ 32
            htp := { http.htp with body := doc2 ++ CONFIG_DELIMITER } },
          [Action.provider_got_config ⟨⟨doc1, some host.host⟩, Method.CLCONFIG_HTTP⟩,
            Action.lcbio_ctx_rwant 1, Action.lcbio_ctx_schedule]) := by
  obtain ⟨ioctx, creq, ⟨st, status, body⟩, dt, it, ar, nodes, cc, lp, g, tn, ut, rb⟩ := http
  simp only at hparse herr hbody hempty hnext hctx
  subst hempty hnext hctx
  have t1 := take_document doc1 []
  have r1 := drop_document doc1 []
  have t2 := take_document doc2 []
  have r2 := drop_document doc2 []
  simp only [List.append_nil] at t1 r1 t2 r2
  have hd12 : strstr (doc1 ++ CONFIG_DELIMITER ++ (doc2 ++ CONFIG_DELIMITER)) CONFIG_DELIMITER
      = some doc1.length := strstr_append _ _ _ _ hd1
  have t12 := take_document doc1 (doc2 ++ CONFIG_DELIMITER)
  have r12 := drop_document doc1 (doc2 ++ CONFIG_DELIMITER)
  constructor
  · -- two segments
    have s1 := process_chunk_document env
      ⟨some host, creq, ⟨st, status, []⟩, dt, some env.config_node_timeout, ar, nodes, cc, lp, g,
        false, ut, rb⟩
      (doc1 ++ CONFIG_DELIMITER) doc1.length (by simpa using hparse [] _) herr hbody rfl hconn
      (by simpa using hd1) (by simpa [t1] using hj1)
    have s2 := process_chunk_document env
      ⟨some host, creq, ⟨st, status, []⟩, dt, some env.config_node_timeout, ar, nodes, cc,
        some ⟨⟨doc1, none⟩, Method.CLCONFIG_HTTP⟩, (g + 1) % 2 ^ 32, false, ut, rb⟩
      (doc2 ++ CONFIG_DELIMITER) doc2.length (by simpa using hparse [] _) herr hbody rfl hconn
      (by simpa using hd2) (by simpa [t2] using hj2)
    simp only [List.nil_append, t1, r1, t2, r2] at s1 s2
    have hg : ¬ (g + 2) % 2 ^ 32 = g := generation_changed g 2 (by decide) (by decide)
    simp only [read_common, read_segments, s1, s2, ne_eq, not_true_eq_false, if_false,
      List.append_nil, List.nil_append, not_false_eq_true, if_true, set_new_config,
      generation_step_twice]
    rw [if_pos hg]
    rfl
  · -- one segment
    have s1 := process_chunk_document env
      ⟨some host, creq, ⟨st, status, []⟩, dt, some env.config_node_timeout, ar, nodes, cc, lp, g,
        false, ut, rb⟩
      (doc1 ++ CONFIG_DELIMITER ++ (doc2 ++ CONFIG_DELIMITER)) doc1.length
      (by simpa using hparse [] _) herr hbody rfl hconn
      (by simpa using hd12) (by simpa [t12] using hj1)
    simp only [List.nil_append, t12, r12] at s1
    have hg : ¬ (g + 1) % 2 ^ 32 = g := generation_changed g 1 (by decide) (by decide)
    simp only [read_common, read_segments, s1, ne_eq, not_true_eq_false, if_false,
      List.append_nil, List.nil_append, not_false_eq_true, if_true, set_new_config]
    rw [if_pos hg]
    rfl

/-- Witness of C10 (as amended): documents `A` and `B` in two segments. -/
theorem read_common_two_documents_witness :
    (env_example.conntype = LCB_TYPE_BUCKET
      ∧ http_example.ioctx = some ⟨['n'], ['1']⟩
      ∧ strstr (['A'] ++ CONFIG_DELIMITER) CONFIG_DELIMITER = some ['A'].length
      ∧ strstr (['B'] ++ CONFIG_DELIMITER) CONFIG_DELIMITER = some ['B'].length)
    ∧ (read_common env_example http_example
        [['A'] ++ CONFIG_DELIMITER, ['B'] ++ CONFIG_DELIMITER]).map
          (fun r => (r.2.filterMap Action.got_config?, r.1.generation))
      = some ([⟨⟨['B'], some ['n']⟩, Method.CLCONFIG_HTTP⟩], 2) :=
  ⟨⟨rfl, rfl, by decide, by decide⟩, by
    rw [(read_common_two_documents env_example http_example ⟨['n'], ['1']⟩ ['A'] ['B']
      (fun _ _ => rfl) (by decide) (by decide) rfl rfl rfl rfl (by decide) (by decide)
      rfl rfl).1]
    rfl⟩

/-- Counterexample to C10 as stated: the body `A`, delimiter, `B`, delimiter
delivered to `read_common` as a single segment, at generation 0: the one
notification carries the first document `A`, the generation becomes 1, and
`B` with its delimiter is left in the body buffer. -/
theorem read_common_single_segment_counterexample :
    http_example.generation = 0
    ∧ (read_common env_example http_example
        [['A'] ++ CONFIG_DELIMITER ++ (['B'] ++ CONFIG_DELIMITER)]).map
          (fun r => (r.2.filterMap Action.got_config?, r.1.generation, r.1.htp.body))
      = some ([⟨⟨['A'], some ['n']⟩, Method.CLCONFIG_HTTP⟩], 1, ['B'] ++ CONFIG_DELIMITER) := by
  decide

end bc_http

namespace bc_http

open lcb lcb.lcb_error_t

/-! ## The provider session -/

theorem close_current_handles (s : HttpProvider) :
    (close_current s).1.ioctx = none ∧ (close_current s).1.creq = none
    ∧ (close_current s).1.nodes = s.nodes
    ∧ (close_current s).1.as_reconnect = s.as_reconnect := by
  unfold close_current
  exact ⟨rfl, rfl, rfl, rfl⟩

theorem io_error_ioctx (env : Env) (s : HttpProvider) (e : lcb_error_t) :
    (io_error env s e).2.1.ioctx = none := by
  unfold io_error close_current
  simp only []
  split_ifs <;> rfl

theorem connect_next_ioctx (env : Env) (s : HttpProvider) :
    (connect_next env s).2.1.ioctx = none := by
  unfold connect_next close_current
  simp only []
  split_ifs <;> rfl

theorem setup_request_header_snd (env : Env) (h : HttpProvider) (host : lcb_host_t)
    (r : lcb_error_t × HttpProvider) (hr : setup_request_header env h host = some r) :
    r.2 = { h with request_buf := r.2.request_buf } := by
  unfold setup_request_header at hr
  simp only [] at hr
  split at hr
  · cases hr; rfl
  · split at hr
    · cases hr
    · split at hr
      · cases hr; rfl
      · cases hr
      · split at hr
        · cases hr
        · split at hr
          · cases hr
          · cases hr; rfl

theorem on_connected_creq (env : Env) (s : HttpProvider) (sock : lcb_host_t) (e : lcb_error_t)
    (r : HttpProvider × List Action) (hr : on_connected env s sock e = some r) :
    r.1.ioctx = none ∨ r.1.creq = none := by
  unfold on_connected at hr
  simp only [] at hr
  split at hr
  · cases hr
    exact Or.inl (io_error_ioctx _ _ _)
  · split at hr
    · cases hr
    · rename_i q hq
      split at hr
      · cases hr
        exact Or.inl (io_error_ioctx _ _ _)
      · cases hr
        right
        show q.2.creq = none
        rw [setup_request_header_snd env _ sock q hq]
        rfl

theorem refresh_handles (env : Env) (s : HttpProvider) :
    (refresh env s).creq = s.creq ∧ (refresh env s).ioctx = s.ioctx := by
  unfold refresh
  simp only []
  constructor <;> split_ifs <;> rfl

theorem pause_handles (env : Env) (s : HttpProvider) :
    (pause env s).creq = s.creq ∧ (pause env s).ioctx = s.ioctx := by
  unfold pause
  constructor <;> split_ifs <;> rfl

/-- C13: the I/O timeout handler performs the I/O-error escalation, which
closes the current connection and starts the next connect, exactly when this
provider is the monitor's current provider and the monitor is refreshing; in
every other case the provider is left as it is (connection handle, connect
request and all timers included) and no call is made. -/
theorem timeout_handler_escalates_iff (env : Env) (http : HttpProvider) :
    ((env.is_cur_provider = true ∧ env.is_refreshing = true) →
      timeout_handler env http = (io_error env http LCB_ETIMEDOUT).2
      ∧ (timeout_handler env http).1.ioctx = none
      ∧ (timeout_handler env http).1.creq = (lcbio_connect_hl env http.nodes false).1
      ∧ (http.ioctx.isSome = true → Action.lcbio_ctx_close ∈ (timeout_handler env http).2))
    ∧ (¬ (env.is_cur_provider = true ∧ env.is_refreshing = true) →
      timeout_handler env http = (http, [])) := by
  constructor
  · rintro ⟨hc, hr⟩
    have heq : timeout_handler env http = (io_error env http LCB_ETIMEDOUT).2 := by
      unfold timeout_handler
      simp [hc, hr]
    refine ⟨heq, ?_, ?_, ?_⟩
    · rw [heq]; exact io_error_ioctx _ _ _
    · rw [heq]
      unfold io_error close_current
      simp only []
      split_ifs <;> rfl
    · intro hio
      rw [heq]
      unfold io_error close_current
      simp only [hio, if_true]
      split_ifs <;> simp
  · intro h
    unfold timeout_handler
    have : env.is_cur_provider = false ∨ env.is_refreshing = false := by
      cases hc : env.is_cur_provider <;> cases hr : env.is_refreshing <;> simp_all
    rw [if_pos this]

/-- Witness of C13: the timer fires while the provider is not the current one. -/
theorem timeout_handler_escalates_iff_witness :
    ¬ (({ env_example with is_cur_provider := false }).is_cur_provider = true
        ∧ ({ env_example with is_cur_provider := false }).is_refreshing = true)
    ∧ timeout_handler { env_example with is_cur_provider := false } http_example
        = (http_example, []) :=
  ⟨by decide,
    (timeout_handler_escalates_iff { env_example with is_cur_provider := false }
      http_example).2 (by decide)⟩

/-- C14: `refresh` and `pause` are idempotent on the provider state; neither
changes the connection handle or the connect request, so neither creates a
connection attempt; `refresh` touches the reconnect signal only when both the
connection handle and the connect request are absent; the reconnect callback
does nothing when a connection handle exists, and when it does start an
attempt while another is outstanding, that one is cancelled first. -/
theorem pause_refresh_idempotent (env : Env) (s : HttpProvider) :
    refresh env (refresh env s) = refresh env s
    ∧ pause env (pause env s) = pause env s
    ∧ (refresh env s).creq = s.creq ∧ (refresh env s).ioctx = s.ioctx
    ∧ (pause env s).creq = s.creq ∧ (pause env s).ioctx = s.ioctx
    ∧ ((refresh env s).as_reconnect ≠ s.as_reconnect → s.ioctx = none ∧ s.creq = none)
    ∧ (s.ioctx.isSome = true → delayed_reconnect env s = (s, []))
    ∧ (s.ioctx = none → s.creq.isSome = true →
        (delayed_reconnect env s).2.head? = some Action.lcbio_connect_cancel) := by
  refine ⟨?_, ?_, ?_, ?_, ?_, ?_, ?_, ?_, ?_⟩
  · unfold refresh
    simp only []
    by_cases h1 : s.ioctx = none ∧ s.creq = none
    · obtain ⟨hi, hc⟩ := h1
      simp [hi, hc]
    · cases hi : s.ioctx with
      | none =>
        have hc : ¬ s.creq = none := fun hc => h1 ⟨hi, hc⟩
        simp [hi, hc]
      | some x => simp [hi]
  · unfold pause
    by_cases hv : is_v220_compat env = true
    · simp [hv]
    · cases hd : s.disconn_timer <;> simp [hv, hd]
  · unfold refresh; simp only []; split_ifs <;> rfl
  · unfold refresh; simp only []; split_ifs <;> rfl
  · unfold pause; split_ifs <;> rfl
  · unfold pause; split_ifs <;> rfl
  · intro hne
    by_contra hcon
    apply hne
    unfold refresh
    simp only []
    rw [if_neg hcon]
    split_ifs <;> rfl
  · intro hio
    unfold delayed_reconnect
    rw [if_pos hio]
  · intro hio hcr
    unfold delayed_reconnect connect_next close_current
    simp only [hio, hcr, Option.isSome_none, Bool.false_eq_true, if_false, if_true]
    split_ifs <;> simp

/-- Witness of C14: a reconnect callback on the streaming example provider. -/
theorem pause_refresh_idempotent_witness :
    http_example.ioctx.isSome = true
    ∧ delayed_reconnect env_example http_example = (http_example, []) :=
  ⟨rfl, (pause_refresh_idempotent env_example http_example).2.2.2.2.2.2.2.1 rfl⟩

/-- C15: in every state reachable from a freshly constructed provider through
`configure_nodes`, `close_current`, `io_error`, `connect_next`, `on_connected`
(while a connect request is outstanding), `delayed_disconn`,
`delayed_reconnect`, `pause` and `refresh`, the connection handle and the
in-flight connect request are never both populated. -/
theorem session_never_both (env : Env) (s : HttpProvider) (h : Reachable env s) :
    ¬ (s.ioctx.isSome = true ∧ s.creq.isSome = true) := by
  induction h with
  | new => simp [HttpProvider.new]
  | configure_nodes s l _ ih => exact ih
  | close_current s _ _ =>
    rw [(close_current_handles s).1]; simp
  | io_error s e _ _ =>
    rw [io_error_ioctx]; simp
  | connect_next s _ _ =>
    rw [connect_next_ioctx]; simp
  | on_connected s sock e r _ _ hr _ =>
    rcases on_connected_creq env s sock e r hr with h | h <;> rw [h] <;> simp
  | delayed_disconn s _ _ =>
    show ¬ ((close_current s).1.ioctx.isSome = true ∧ _)
    rw [(close_current_handles s).1]; simp
  | delayed_reconnect s _ ih =>
    unfold delayed_reconnect
    simp only []
    split_ifs
    · exact ih
    · rw [io_error_ioctx]; simp
    · rw [connect_next_ioctx]; simp
  | pause s _ ih =>
    rw [(pause_handles env s).1, (pause_handles env s).2]
    exact ih
  | refresh s _ ih =>
    rw [(refresh_handles env s).1, (refresh_handles env s).2]
    exact ih

/-- Witness of C15: the state after configuring one node, starting the
connection attempt and completing it. -/
theorem session_never_both_witness :
    Reachable env_example
      ((on_connected env_example
        (connect_next env_example (configure_nodes HttpProvider.new [⟨['n'], ['1']⟩])).2.1
        ⟨['n'], ['1']⟩ LCB_SUCCESS).getD (HttpProvider.new, [])).1
    ∧ ¬ (((on_connected env_example
          (connect_next env_example (configure_nodes HttpProvider.new [⟨['n'], ['1']⟩])).2.1
          ⟨['n'], ['1']⟩ LCB_SUCCESS).getD (HttpProvider.new, [])).1.ioctx.isSome = true
        ∧ ((on_connected env_example
          (connect_next env_example (configure_nodes HttpProvider.new [⟨['n'], ['1']⟩])).2.1
          ⟨['n'], ['1']⟩ LCB_SUCCESS).getD (HttpProvider.new, [])).1.creq.isSome = true) :=
  ⟨Reachable.on_connected _ ⟨['n'], ['1']⟩ LCB_SUCCESS
      ((on_connected env_example
        (connect_next env_example (configure_nodes HttpProvider.new [⟨['n'], ['1']⟩])).2.1
        ⟨['n'], ['1']⟩ LCB_SUCCESS).getD (HttpProvider.new, []))
      (Reachable.connect_next _
        (Reachable.configure_nodes _ [⟨['n'], ['1']⟩] Reachable.new)) (by decide)
      (by decide),
    session_never_both env_example _
      (Reachable.on_connected _ ⟨['n'], ['1']⟩ LCB_SUCCESS
        ((on_connected env_example
          (connect_next env_example (configure_nodes HttpProvider.new [⟨['n'], ['1']⟩])).2.1
          ⟨['n'], ['1']⟩ LCB_SUCCESS).getD (HttpProvider.new, []))
        (Reachable.connect_next _
          (Reachable.configure_nodes _ [⟨['n'], ['1']⟩] Reachable.new)) (by decide)
        (by decide))⟩

end bc_http

namespace bc_http

open lcb lcb.lcb_error_t

/-! ## Exhaustion of the candidate list -/

theorem close_current_no_failure (s : HttpProvider) (e : lcb_error_t) :
    Action.provider_failed e ∉ (close_current s).2 := by
  unfold close_current
  simp only []
  split_ifs <;> simp

theorem connect_loop_refreshing (env : Env) (b rollover : Bool) :
    ∀ (n : Nat) (hl : Hostlist),
      connect_loop { env with is_refreshing := b } rollover n hl
        = connect_loop env rollover n hl := by
  intro n
  induction n with
  | zero => intro hl; rfl
  | succ n ih =>
    intro hl
    simp only [connect_loop, ih]

theorem io_error_refreshing (env : Env) (b : Bool) (http : HttpProvider) (e : lcb_error_t) :
    io_error { env with is_refreshing := b } http e = io_error env http e := by
  unfold io_error lcbio_connect_hl
  simp only [connect_loop_refreshing]
  rfl

/-- C19 (as amended): in `io_error`, when no connect attempt can be started,
the provider reports `provider_failed` with the original error, returns it and
disarms the I/O timer; the reconnect timer ends up armed with the grace delay
exactly when the provider is in legacy mode and a prior configuration exists
(a timer already armed is left as it is), whether or not a refresh is in
progress. When a connect attempt is started it returns success, reports no
failure and leaves the reconnect timer alone. -/
theorem io_error_exhausted (env : Env) (http : HttpProvider) (origerr : lcb_error_t) :
    ((lcbio_connect_hl env http.nodes false).1 = none →
      (io_error env http origerr).1 = origerr
      ∧ (io_error env http origerr).2.2
          = (close_current http).2 ++ [Action.provider_failed origerr]
      ∧ (io_error env http origerr).2.1.io_timer = none
      ∧ (io_error env http origerr).2.1.as_reconnect =
          (if is_v220_compat env = true ∧ env.parent_config = true then
            (if http.as_reconnect.isSome = true then http.as_reconnect
             else some env.grace_next_cycle)
          else http.as_reconnect)
      ∧ (http.as_reconnect = none →
          ((io_error env http origerr).2.1.as_reconnect.isSome = true
            ↔ (is_v220_compat env = true ∧ env.parent_config = true))))
    ∧ (∀ h, (lcbio_connect_hl env http.nodes false).1 = some h →
      (io_error env http origerr).1 = LCB_SUCCESS
      ∧ (io_error env http origerr).2.2 = (close_current http).2
      ∧ (∀ e, Action.provider_failed e ∉ (io_error env http origerr).2.2)
      ∧ (io_error env http origerr).2.1.creq = some h
      ∧ (io_error env http origerr).2.1.as_reconnect = http.as_reconnect)
    ∧ (∀ b, io_error { env with is_refreshing := b } http origerr
        = io_error env http origerr) := by
  refine ⟨?_, ?_, fun b => io_error_refreshing env b http origerr⟩
  · intro hn
    have hn2 : (lcbio_connect_hl env (close_current http).1.nodes false).1 = none := by
      rw [(close_current_handles http).2.2.1]; exact hn
    have hr : (close_current http).1.as_reconnect = http.as_reconnect :=
      (close_current_handles http).2.2.2
    unfold io_error
    simp only [hn2, Option.isSome_none, Bool.false_eq_true, if_false, hr]
    refine ⟨trivial, trivial, ?_, ?_, ?_⟩
    · split_ifs <;> rfl
    · cases ha : http.as_reconnect <;> split_ifs <;> simp_all
    · intro ha
      split_ifs <;> simp_all
  · intro h hs
    have hs2 : (lcbio_connect_hl env (close_current http).1.nodes false).1 = some h := by
      rw [(close_current_handles http).2.2.1]; exact hs
    have hr : (close_current http).1.as_reconnect = http.as_reconnect :=
      (close_current_handles http).2.2.2
    unfold io_error
    simp only [hs2, Option.isSome_some, if_true, hr]
    exact ⟨trivial, trivial, fun e => close_current_no_failure http e, trivial, trivial⟩

/-- Witness of C19 (as amended): legacy mode with a prior configuration and an
exhausted candidate list. -/
theorem io_error_exhausted_witness :
    (lcbio_connect_hl
        { env_example with
          bc_http_stream_time := 4294967295, parent_config := true
          lcbio_connect := fun _ => false }
        http_example.nodes false).1 = none
    ∧ (io_error
        { env_example with
          bc_http_stream_time := 4294967295, parent_config := true
          lcbio_connect := fun _ => false }
        http_example LCB_ETIMEDOUT).1 = LCB_ETIMEDOUT :=
  ⟨by decide,
    ((io_error_exhausted
      { env_example with
        bc_http_stream_time := 4294967295, parent_config := true
        lcbio_connect := fun _ => false }
      http_example LCB_ETIMEDOUT).1 (by decide)).1⟩

/-- Counterexample to C19 as stated: legacy mode, a prior configuration, the
candidate list exhausted and no refresh in progress: the reconnect timer is
armed all the same. -/
theorem io_error_reconnect_counterexample :
    ({ env_example with
        bc_http_stream_time := 4294967295, parent_config := true, is_refreshing := false
        lcbio_connect := fun _ => false }).is_refreshing = false
    ∧ http_example.as_reconnect = none
    ∧ (io_error
        { env_example with
          bc_http_stream_time := 4294967295, parent_config := true, is_refreshing := false
          lcbio_connect := fun _ => false }
        http_example LCB_ETIMEDOUT).2.1.as_reconnect = some 1000
    ∧ (io_error
        { env_example with
          bc_http_stream_time := 4294967295, parent_config := true, is_refreshing := false
          lcbio_connect := fun _ => false }
        http_example LCB_ETIMEDOUT).2.2
      = [Action.lcbio_ctx_close, Action.provider_failed LCB_ETIMEDOUT] := by
  decide

end bc_http

namespace bc_http

open lcb lcb.lcb_error_t

/-! ## Claims on `process_chunk` -/

/-- C12: on a bucket connection in the body phase (no parse error, no header
event other than a 200 status in this call, no URL retry pending, body seen):
without a delimiter in the accumulated body the call returns success and only
the parser state has moved; with a delimiter whose preceding text
deserializes, that text becomes `last_parsed`, the generation advances by one
(32-bit counter) and the body keeps exactly what followed the delimiter; when
the text does not deserialize the call returns `LCB_PROTOCOL_ERROR` and
generation and `last_parsed` are as before. -/
theorem process_chunk_body_phase (env : Env) (http : HttpProvider) (buf : List Char)
    (herr : (env.lcbht_parse http.htp buf).state &&& LCBHT_S_ERROR = 0)
    (hhdr : ((env.lcbht_parse http.htp buf).state ^^^ http.htp.state) &&& LCBHT_S_HEADER = 0
      ∨ (env.lcbht_parse http.htp buf).status = 200)
    (hbody : (env.lcbht_parse http.htp buf).state &&& LCBHT_S_BODY ≠ 0)
    (hnext : http.try_nexturi = false)
    (hconn : env.conntype = LCB_TYPE_BUCKET) :
    (strstr (env.lcbht_parse http.htp buf).body CONFIG_DELIMITER = none →
      process_chunk env http buf
        = some (LCB_SUCCESS, { http with htp := env.lcbht_parse http.htp buf }, []))
    ∧ (∀ k, strstr (env.lcbht_parse http.htp buf).body CONFIG_DELIMITER = some k →
      env.lcbvb_load_json ((env.lcbht_parse http.htp buf).body.take k) = true →
      process_chunk env http buf
        = some (LCB_SUCCESS,
            { http with
              last_parsed := some
                ⟨⟨(env.lcbht_parse http.htp buf).body.take k, none⟩, Method.CLCONFIG_HTTP⟩
              generation := (http.generation + 1) % 2 ^ 32
              htp := { env.lcbht_parse http.htp buf with
                body := (env.lcbht_parse http.htp buf).body.drop
                  (k + CONFIG_DELIMITER.length) } }, [])
      ∧ (http.generation + 1 < 2 ^ 32 → (http.generation + 1) % 2 ^ 32 = http.generation + 1))
    ∧ (∀ k, strstr (env.lcbht_parse http.htp buf).body CONFIG_DELIMITER = some k →
      env.lcbvb_load_json ((env.lcbht_parse http.htp buf).body.take k) = false →
      ∃ h1, process_chunk env http buf = some (LCB_PROTOCOL_ERROR, h1, [])
        ∧ h1.generation = http.generation ∧ h1.last_parsed = http.last_parsed) := by
  have hc : ¬ (LCB_TYPE_BUCKET = LCB_TYPE_CLUSTER) := by decide
  have hpre : process_chunk env http buf =
      match strstr (env.lcbht_parse http.htp buf).body CONFIG_DELIMITER with
      | none => some (LCB_SUCCESS, { http with htp := env.lcbht_parse http.htp buf }, [])
      | some term =>
        if env.lcbvb_load_json ((env.lcbht_parse http.htp buf).body.take term) = false then
          some (LCB_PROTOCOL_ERROR,
            { http with htp := { env.lcbht_parse http.htp buf with
                body := (env.lcbht_parse http.htp buf).body.take term } }, [])
        else
          some (LCB_SUCCESS,
            { http with
              last_parsed := some
                ⟨⟨(env.lcbht_parse http.htp buf).body.take term, none⟩, Method.CLCONFIG_HTTP⟩
              generation := (http.generation + 1) % 2 ^ 32
              htp := { env.lcbht_parse http.htp buf with
                body := (env.lcbht_parse http.htp buf).body.drop
                  (term + CONFIG_DELIMITER.length) } }, []) := by
    unfold process_chunk
    rcases hhdr with hh | hs
    · simp only [herr, hh, hbody, hnext, hconn, hc, ne_eq, not_true_eq_false,
        not_false_eq_true, if_true, if_false, Bool.false_eq_true]
    · by_cases hh : ((env.lcbht_parse http.htp buf).state ^^^ http.htp.state)
          &&& LCBHT_S_HEADER = 0
      · simp only [herr, hh, hbody, hnext, hconn, hc, ne_eq, not_true_eq_false,
          not_false_eq_true, if_true, if_false, Bool.false_eq_true]
      · simp only [herr, hh, hs, hbody, hnext, hconn, hc, ne_eq, not_true_eq_false,
          not_false_eq_true, if_true, if_false, Bool.false_eq_true]
  refine ⟨?_, ?_, ?_⟩
  · intro hn
    rw [hpre, hn]
  · intro k hk hj
    refine ⟨?_, fun h => Nat.mod_eq_of_lt h⟩
    rw [hpre, hk]
    simp only [hj, Bool.true_eq_false, if_false]
  · intro k hk hj
    rw [hpre, hk]
    simp only [hj, if_true]
    exact ⟨_, rfl, rfl, rfl⟩

/-- Witness of C12: the body `A` followed by the delimiter. -/
theorem process_chunk_body_phase_witness :
    ((env_example.lcbht_parse http_example.htp (['A'] ++ CONFIG_DELIMITER)).state
        &&& LCBHT_S_ERROR = 0
      ∧ (env_example.lcbht_parse http_example.htp (['A'] ++ CONFIG_DELIMITER)).state
        &&& LCBHT_S_BODY ≠ 0
      ∧ http_example.try_nexturi = false
      ∧ env_example.conntype = LCB_TYPE_BUCKET)
    ∧ (process_chunk env_example http_example (['A'] ++ CONFIG_DELIMITER)).map
        (fun r => (r.1, r.2.1.generation, r.2.1.htp.body))
      = some (LCB_SUCCESS, 1, []) :=
  ⟨⟨by decide, by decide, rfl, rfl⟩, by
    rw [((process_chunk_body_phase env_example http_example (['A'] ++ CONFIG_DELIMITER)
      (by decide) (Or.inl (by decide)) (by decide) rfl rfl).2.1 1 (by decide) rfl).1]
    decide⟩

end bc_http

namespace bc_http

open lcb lcb.lcb_error_t

/-! ## URL fallback on HTTP 404 -/

end bc_http

namespace bc_http

open lcb lcb.lcb_error_t

end bc_http

namespace mcserver

open lcb lcb.lcb_error_t

/-! ## Failing requests -/

/-- C16 (as amended): in `purge_single` the retry decision comes first and is
taken on the error as given: for `LCB_AUTH_ERROR`, `maybe_retry_packet` asks
`lcb_should_retry` about `LCB_AUTH_ERROR` and, when it retries, puts the clone
in the retry queue with `LCB_AUTH_ERROR`. Only when the request is not retried
is the error reclassified, and the request is then delivered with
`LCB_MAP_CHANGED`. -/
theorem purge_single_auth_error (env : Env) (pkt : mc_PACKET) :
    ((env.distmode = lcbvb_DISTMODE.LCBVB_DIST_VBUCKET
        ∧ env.lcb_should_retry pkt LCB_AUTH_ERROR = true) →
      purge_single env pkt LCB_AUTH_ERROR
        = [Action.retryq_add (clear_state_flags (env.mcreq_renew_packet pkt))
            LCB_AUTH_ERROR none])
    ∧ (¬ (env.distmode = lcbvb_DISTMODE.LCBVB_DIST_VBUCKET
        ∧ env.lcb_should_retry pkt LCB_AUTH_ERROR = true) →
      purge_single env pkt LCB_AUTH_ERROR
        = [Action.mcreq_dispatch_response pkt (failure_response pkt) LCB_MAP_CHANGED]) := by
  constructor
  · rintro ⟨hd, hr⟩
    simp [purge_single, maybe_retry_packet, hd, hr]
  · intro h
    by_cases hd : env.distmode = lcbvb_DISTMODE.LCBVB_DIST_VBUCKET
    · have hr : env.lcb_should_retry pkt LCB_AUTH_ERROR = false := by
        cases hx : env.lcb_should_retry pkt LCB_AUTH_ERROR
        · rfl
        · exact absurd ⟨hd, hx⟩ h
      simp [purge_single, maybe_retry_packet, hd, hr]
    · simp [purge_single, maybe_retry_packet, hd]

/-- Witness of C16 (as amended): a memcached-bucket cluster, where nothing is
retried. -/
theorem purge_single_auth_error_witness :
    ¬ (({ env_example ⟨false, [], 0⟩ with
          distmode := lcbvb_DISTMODE.LCBVB_DIST_KETAMA }).distmode
          = lcbvb_DISTMODE.LCBVB_DIST_VBUCKET
        ∧ ({ env_example ⟨false, [], 0⟩ with
          distmode := lcbvb_DISTMODE.LCBVB_DIST_KETAMA }).lcb_should_retry pkt_example
            LCB_AUTH_ERROR = true)
    ∧ purge_single
        { env_example ⟨false, [], 0⟩ with distmode := lcbvb_DISTMODE.LCBVB_DIST_KETAMA }
        pkt_example LCB_AUTH_ERROR
      = [Action.mcreq_dispatch_response pkt_example (failure_response pkt_example)
          LCB_MAP_CHANGED] :=
  ⟨by decide,
    (purge_single_auth_error
      { env_example ⟨false, [], 0⟩ with distmode := lcbvb_DISTMODE.LCBVB_DIST_KETAMA }
      pkt_example).2 (by decide)⟩

/-- Counterexample to C16 as stated: with a retry policy that accepts
`LCB_AUTH_ERROR` and nothing else (so not `LCB_MAP_CHANGED`), a request failed
with `LCB_AUTH_ERROR` is retried, and the retry queue receives it with
`LCB_AUTH_ERROR`. -/
theorem purge_single_auth_counterexample :
    purge_single
        { env_example ⟨false, [], 0⟩ with
          lcb_should_retry := fun _ e => decide (e = LCB_AUTH_ERROR) }
        pkt_example LCB_AUTH_ERROR
      = [Action.retryq_add pkt_example LCB_AUTH_ERROR none]
    ∧ (maybe_retry_packet
        { env_example ⟨false, [], 0⟩ with
          lcb_should_retry := fun _ e => decide (e = LCB_AUTH_ERROR) }
        pkt_example LCB_MAP_CHANGED).1 = false := by
  decide

end mcserver

namespace mcserver

open lcb lcb.lcb_error_t

/-! ## Fast-path statuses -/

end mcserver

namespace mcserver

open lcb lcb.lcb_error_t

/-! ## Socket failure -/

theorem mcreq_pipeline_fail_all (env : Env) (err : lcb_error_t) (l : List mc_PACKET) :
    mcreq_pipeline_fail env err l
      = (l.length, [],
          l.flatMap (fun p => purge_single env p err ++ [Action.mcreq_packet_handled p])) := by
  unfold mcreq_pipeline_fail
  induction l with
  | nil => rfl
  | cons p rest ih =>
    simp only [mcreq_pipeline_timeout, ne_eq, not_true_eq_false, false_and, if_false, ih,
      List.length_cons, List.flatMap_cons, List.append_assoc]

theorem check_closed_clean (srv : Server) (h : srv.state = State.S_CLEAN) :
    check_closed srv = some (false, srv, []) := by
  unfold check_closed
  rw [if_pos h]

theorem check_closed_not_clean (srv : Server) (h : srv.state ≠ State.S_CLEAN) :
    check_closed srv = (finalize_errored_ctx srv).map (fun r => (true, r.1, r.2)) := by
  unfold check_closed
  rw [if_neg h]
  cases finalize_errored_ctx srv <;> rfl

/-- On a clean channel `socket_failed` fails every pending request with the
triggering error, asks for a refresh, and enters the draining procedure with
an empty pipeline. -/
theorem socket_failed_purge_eq (env : Env) (srv : Server) (err : lcb_error_t)
    (hclean : srv.state = State.S_CLEAN) :
    socket_failed env srv err =
      (start_errored_ctx env { srv with requests := [] } State.S_ERRDRAIN).map
        (fun r => (r.1,
          srv.requests.flatMap
              (fun p => purge_single env p err ++ [Action.mcreq_packet_handled p])
            ++ [Action.bootstrap (BS_REFRESH_THROTTLE ||| BS_REFRESH_INCRERR),
                Action.lcb_maybe_breakout]
            ++ r.2)) := by
  unfold socket_failed
  rw [check_closed_clean srv hclean]
  simp only [purge, ne_eq, not_true_eq_false, if_false, mcreq_pipeline_fail_all]
  have hp : ¬ (RefreshPolicy.REFRESH_ALWAYS = RefreshPolicy.REFRESH_NEVER) := by decide
  have hq : ((2 : Nat) ^ 32 - 1 ≠ 0 ∨ RefreshPolicy.REFRESH_ALWAYS = RefreshPolicy.REFRESH_ALWAYS) :=
    Or.inr rfl
  simp only [hp, if_false]
  cases hs : start_errored_ctx env { srv with requests := [] } State.S_ERRDRAIN with
  | none => simp [hs]
  | some r => simp [hs]

/-- C17 (as amended): on a channel in state Clean, `socket_failed(err)` fails
every pending request with the triggering error through `purge_single`
(no age threshold, the pipeline is left empty) and requests one topology
refresh whatever the number of requests. When it returns, the channel is in
state ErrorDraining if there is no transport handle or the handle still has
I/O in flight; if the handle has nothing in flight the channel was finalized
at once: the handle is closed and the channel is in Clean with a new
connection request. -/
theorem socket_failed_clean (env : Env) (srv : Server) (err : lcb_error_t)
    (hclean : srv.state = State.S_CLEAN) :
    (∃ s rest, socket_failed env srv err
        = some (s,
            srv.requests.flatMap
                (fun p => purge_single env p err ++ [Action.mcreq_packet_handled p])
              ++ [Action.bootstrap (BS_REFRESH_THROTTLE ||| BS_REFRESH_INCRERR),
                  Action.lcb_maybe_breakout]
              ++ rest)
        ∧ s.requests = []
        ∧ (srv.connctx = none → s.state = State.S_ERRDRAIN)
        ∧ (∀ c, srv.connctx = some c → c.npending ≠ 0 →
            s.state = State.S_ERRDRAIN ∧ s.connctx = some c)
        ∧ (∀ c, srv.connctx = some c → c.npending = 0 →
            s.state = State.S_CLEAN ∧ s.connctx = none ∧ s.connreq = true
            ∧ Action.lcbio_ctx_close ∈ rest)) := by
  rw [socket_failed_purge_eq env srv err hclean]
  have hne : ¬ (State.S_ERRDRAIN = State.S_CLOSED) := by decide
  cases hs : start_errored_ctx env { srv with requests := [] } State.S_ERRDRAIN with
  | none =>
    exfalso
    unfold start_errored_ctx finalize_errored_ctx at hs
    cases hctx : srv.connctx with
    | none =>
      simp [hctx, Server.has_pending] at hs
    | some c =>
      by_cases hn : c.npending = 0 <;> simp [hctx, hn] at hs
  | some r =>
    refine ⟨r.1, r.2, rfl, ?_, ?_, ?_, ?_⟩
    · unfold start_errored_ctx finalize_errored_ctx connect at hs
      cases hctx : srv.connctx with
      | none =>
        simp [hctx, Server.has_pending] at hs
        rw [← hs]
      | some c =>
        by_cases hn : c.npending = 0
        · simp [hctx, hn] at hs
          rw [← hs]
        · simp [hctx, hn] at hs
          rw [← hs]
    · intro hctx
      unfold start_errored_ctx at hs
      simp [hctx, Server.has_pending] at hs
      rw [← hs]
    · intro c hctx hn
      unfold start_errored_ctx at hs
      simp [hctx, hn] at hs
      rw [← hs]
      exact ⟨rfl, rfl⟩
    · intro c hctx hn
      unfold start_errored_ctx finalize_errored_ctx connect at hs
      simp [hctx, hn] at hs
      rw [← hs]
      exact ⟨rfl, rfl, rfl, by simp⟩

/-- Witness of C17 (as amended): the clean example channel without a transport
handle. -/
theorem socket_failed_clean_witness :
    srv_example.state = State.S_CLEAN
    ∧ ∃ s rest, socket_failed (env_example ⟨false, [], 0⟩) srv_example LCB_ERROR
        = some (s,
            srv_example.requests.flatMap
                (fun p => purge_single (env_example ⟨false, [], 0⟩) p LCB_ERROR
                  ++ [Action.mcreq_packet_handled p])
              ++ [Action.bootstrap (BS_REFRESH_THROTTLE ||| BS_REFRESH_INCRERR),
                  Action.lcb_maybe_breakout]
              ++ rest)
        ∧ s.requests = [] := by
  refine ⟨rfl, ?_⟩
  obtain ⟨s, rest, h1, h2, _⟩ :=
    socket_failed_clean (env_example ⟨false, [], 0⟩) srv_example LCB_ERROR rfl
  exact ⟨s, rest, h1, h2⟩

/-- Counterexample to C17 as stated: a clean channel whose transport handle
has nothing in flight is finalized inside `socket_failed`: when the call
returns the state is Clean, not ErrorDraining, and a connection request is
outstanding. -/
theorem socket_failed_state_counterexample :
    ({ srv_example with connctx := some ⟨0⟩ } : Server).state = State.S_CLEAN
    ∧ (socket_failed (env_example ⟨false, [], 0⟩)
        { srv_example with connctx := some ⟨0⟩ } LCB_ERROR).map
          (fun r => (r.1.state, r.1.connreq, r.1.connctx))
      = some (State.S_CLEAN, true, none) := by
  decide

end mcserver

namespace mcserver

open lcb lcb.lcb_error_t

/-! ## Handlers invoked after the channel left Clean -/

theorem flush_all_calls (l : List Nat) :
    ∀ x ∈ (flush_all l).2, ∃ n, x = Action.mcreq_flush_done n n := by
  induction l with
  | nil => intro x hx; simp [flush_all] at hx
  | cons n rest ih =>
    intro x hx
    simp only [flush_all] at hx
    split_ifs at hx
    · simp at hx
    · rcases List.mem_cons.mp hx with h | h
      · exact ⟨n, h⟩
      · exact ih x h

/-- Finalization touches neither the pipeline nor the timer: its calls are the
close of the transport, the reports of flushed spans and the reconnection. -/
theorem finalize_errored_ctx_frame (srv s : Server) (a : List Action)
    (h : finalize_errored_ctx srv = some (s, a)) :
    s.requests = srv.requests ∧ s.io_timer = srv.io_timer
    ∧ ∀ x ∈ a, x = Action.lcbio_ctx_close ∨ x = Action.sockpool_get
        ∨ ∃ n, x = Action.mcreq_flush_done n n := by
  unfold finalize_errored_ctx connect at h
  cases hctx : srv.connctx with
  | none => simp [hctx] at h
  | some c =>
    by_cases hn : c.npending = 0
    · by_cases hcl : srv.state = State.S_CLOSED
      · simp [hctx, hn, hcl] at h
        obtain ⟨h1, h2⟩ := h
        subst h1 h2
        refine ⟨rfl, rfl, ?_⟩
        intro x hx
        rcases List.mem_cons.mp hx with hx | hx
        · exact Or.inl hx
        · exact Or.inr (Or.inr (flush_all_calls _ x hx))
      · simp [hctx, hn, hcl] at h
        obtain ⟨h1, h2⟩ := h
        subst h1 h2
        refine ⟨rfl, rfl, ?_⟩
        intro x hx
        rcases List.mem_cons.mp hx with hx | hx
        · exact Or.inl hx
        · rcases List.mem_append.mp hx with hx | hx
          · exact Or.inr (Or.inr (flush_all_calls _ x hx))
          · simp at hx
            exact Or.inr (Or.inl hx)
    · simp [hctx, hn] at h
      obtain ⟨h1, h2⟩ := h
      subst h1 h2
      exact ⟨rfl, rfl, fun x hx => by simp at hx⟩

/-- C20 (as amended): invoked while the channel state is not Clean, `on_read`,
`on_error` and `socket_failed` check the state first and then only run
finalization, which parses no frame, purges no request and rearms no timer.
`on_flush_done` updates the flush accounting first (`mcreq_flush_done_ex`) and
only then checks the state and runs finalization. `io_timeout` does not check
the state: it purges timed-out requests and rearms the timer in every state. -/
theorem handlers_after_close (env : Env) (srv : Server) (hst : srv.state ≠ State.S_CLEAN) :
    (∀ ior, on_read env srv ior = (finalize_errored_ctx srv).map (fun r => (r.1, ior, r.2)))
    ∧ (∀ err, on_error env srv err = finalize_errored_ctx srv)
    ∧ (∀ err, socket_failed env srv err = finalize_errored_ctx srv)
    ∧ (∀ expected actual now, on_flush_done env srv expected actual now
        = (finalize_errored_ctx srv).map (fun r =>
            (r.1, Action.mcreq_flush_done_ex actual expected
                (if env.readj_ts_wait = true then now else 0) :: r.2)))
    ∧ (∀ s a, finalize_errored_ctx srv = some (s, a) →
        s.requests = srv.requests ∧ s.io_timer = srv.io_timer
        ∧ ∀ x ∈ a, x = Action.lcbio_ctx_close ∨ x = Action.sockpool_get
            ∨ ∃ n, x = Action.mcreq_flush_done n n)
    ∧ (∀ now, io_timeout env srv now =
        ({ (io_timeout env { srv with state := State.S_CLEAN } now).1 with state := srv.state },
          (io_timeout env { srv with state := State.S_CLEAN } now).2)) := by
  have hcc := check_closed_not_clean srv hst
  refine ⟨?_, ?_, ?_, ?_, ?_, ?_⟩
  · intro ior
    unfold on_read
    rw [hcc]
    cases finalize_errored_ctx srv <;> rfl
  · intro err
    unfold on_error
    rw [hcc]
    cases finalize_errored_ctx srv <;> rfl
  · intro err
    unfold socket_failed
    rw [hcc]
    cases finalize_errored_ctx srv <;> rfl
  · intro expected actual now
    unfold on_flush_done
    rw [hcc]
    cases finalize_errored_ctx srv <;> rfl
  · intro s a h
    exact finalize_errored_ctx_frame srv s a h
  · intro now
    unfold io_timeout purge
    simp only []
    split_ifs <;> rfl

/-- Witness of C20 (as amended): a read event on the draining example channel. -/
theorem handlers_after_close_witness :
    srv_draining.state ≠ State.S_CLEAN
    ∧ on_read (env_example ⟨false, [], 0⟩) srv_draining (frame_example 0 0 0 0 7 [])
      = some (srv_draining, frame_example 0 0 0 0 7 [], []) :=
  ⟨by decide, by
    rw [(handlers_after_close (env_example ⟨false, [], 0⟩) srv_draining (by decide)).1]
    decide⟩

/-- Counterexample to C20 as stated: on the draining example channel (state
ErrorDraining) `io_timeout` fails the pending request with the timeout error,
marks it handled, asks for a refresh and rearms the timer; and `on_flush_done`
reports the flushed bytes to the flush accounting before it checks the state. -/
theorem handlers_after_close_counterexample :
    srv_draining.state = State.S_ERRDRAIN
    ∧ io_timeout { env_example ⟨false, [], 0⟩ with lcb_should_retry := fun _ _ => false }
        srv_draining 10000000000
      = ({ srv_draining with requests := [], io_timer := some (some 2500000) },
          [Action.mcreq_dispatch_response pkt_example (failure_response pkt_example)
              LCB_ETIMEDOUT,
            Action.mcreq_packet_handled pkt_example,
            Action.bootstrap (BS_REFRESH_THROTTLE ||| BS_REFRESH_INCRERR),
            Action.lcbio_timer_rearm 2500000,
            Action.lcb_maybe_breakout])
    ∧ on_flush_done (env_example ⟨false, [], 0⟩) srv_draining 10 10 0
      = some (srv_draining, [Action.mcreq_flush_done_ex 10 10 0]) := by
  decide

end mcserver

namespace mcserver

open lcb lcb.lcb_error_t

/-! ## Entering the draining state with I/O in flight -/

/-- C21 (as amended): in `Server::start_errored_ctx`, when a transport handle
exists and still has I/O in flight, the final drain is scheduled and the
socket is shut down, for every next state: when the next state is Closed and
when it is ErrorDraining alike. The channel is not finalized: the transport is
not closed, the handle is kept, the channel is neither destroyed nor
reconnected. The next state only decides that the timer is destroyed (Closed)
and that the flush hook becomes `flush_errdrain` (ErrorDraining). -/
theorem start_errored_ctx_in_flight (env : Env) (srv : Server) (next_state : State)
    (ctx : lcbio_CTX) (hctx : srv.connctx = some ctx) (hn : ctx.npending ≠ 0) :
    start_errored_ctx env srv next_state
        = some ({ srv with
                    state := next_state
                    connreq := false
                    io_timer := if next_state = State.S_CLOSED then none else srv.io_timer
                    flush_start :=
                      if next_state = State.S_ERRDRAIN then FlushStart.flush_errdrain
                      else srv.flush_start },
                (if srv.connreq = true then [Action.connreq_cancel] else [])
                  ++ (if next_state = State.S_CLOSED ∧ srv.io_timer ≠ none
                      then [Action.lcbio_timer_destroy] else [])
                  ++ [Action.lcbio_ctx_schedule, Action.lcbio_shutdown])
    ∧ (∀ s a, start_errored_ctx env srv next_state = some (s, a) →
        Action.lcbio_ctx_schedule ∈ a ∧ Action.lcbio_shutdown ∈ a
        ∧ Action.lcbio_ctx_close ∉ a ∧ Action.sockpool_get ∉ a
        ∧ s.connctx = some ctx ∧ s.deleted = srv.deleted ∧ s.unflushed = srv.unflushed
        ∧ s.requests = srv.requests ∧ s.state = next_state) := by
  have heq : start_errored_ctx env srv next_state
        = some ({ srv with
                    state := next_state
                    connreq := false
                    io_timer := if next_state = State.S_CLOSED then none else srv.io_timer
                    flush_start :=
                      if next_state = State.S_ERRDRAIN then FlushStart.flush_errdrain
                      else srv.flush_start },
                (if srv.connreq = true then [Action.connreq_cancel] else [])
                  ++ (if next_state = State.S_CLOSED ∧ srv.io_timer ≠ none
                      then [Action.lcbio_timer_destroy] else [])
                  ++ [Action.lcbio_ctx_schedule, Action.lcbio_shutdown]) := by
    unfold start_errored_ctx
    simp only [hctx, hn, ne_eq, not_false_eq_true, if_true]
    by_cases hc : next_state = State.S_CLOSED
    · by_cases ht : srv.io_timer = none
      · simp [hc, ht]
      · simp [hc, ht]
    · simp [hc]
  refine ⟨heq, ?_⟩
  intro s a h
  rw [heq] at h
  simp only [Option.some.injEq, Prod.mk.injEq] at h
  obtain ⟨h1, h2⟩ := h
  subst h1 h2
  refine ⟨by simp, by simp, ?_, ?_, hctx, rfl, rfl, rfl, rfl⟩
  · split_ifs <;> simp
  · split_ifs <;> simp

/-- Witness of C21 (as amended): the clean example channel with one operation
in flight on its transport, closed for good. -/
theorem start_errored_ctx_in_flight_witness :
    ({ srv_example with connctx := some ⟨1⟩ } : Server).connctx = some ⟨1⟩
    ∧ (⟨1⟩ : lcbio_CTX).npending ≠ 0
    ∧ start_errored_ctx (env_example ⟨false, [], 0⟩)
        { srv_example with connctx := some ⟨1⟩ } State.S_CLOSED
      = some ({ srv_example with
                  connctx := some ⟨1⟩, state := State.S_CLOSED, io_timer := none },
              [Action.lcbio_timer_destroy, Action.lcbio_ctx_schedule, Action.lcbio_shutdown]) :=
  ⟨rfl, by decide,
    (start_errored_ctx_in_flight (env_example ⟨false, [], 0⟩)
      { srv_example with connctx := some ⟨1⟩ } State.S_CLOSED ⟨1⟩ rfl (by decide)).1.trans
      (by decide)⟩

/-- Counterexample to C21 as stated: the same channel entering ErrorDraining.
The socket is shut down although the next state is ErrorDraining. -/
theorem start_errored_ctx_shutdown_counterexample :
    start_errored_ctx (env_example ⟨false, [], 0⟩)
        { srv_example with connctx := some ⟨1⟩ } State.S_ERRDRAIN
      = some ({ srv_example with
                  connctx := some ⟨1⟩, state := State.S_ERRDRAIN,
                  flush_start := FlushStart.flush_errdrain },
              [Action.lcbio_ctx_schedule, Action.lcbio_shutdown]) := by
  decide

end mcserver

namespace mcserver

open lcb lcb.lcb_error_t

/-! ## Finalization -/

/-- After the loop the next `mcreq_flush_iov_fill` yields 0. -/
theorem flush_all_drained (l : List Nat) : mcreq_flush_iov_fill (flush_all l).1 = 0 := by
  induction l with
  | nil => rfl
  | cons n rest ih =>
    simp only [flush_all]
    split_ifs with h
    · simp [mcreq_flush_iov_fill, h]
    · exact ih

/-- The loop reports every span it removes, with its size. -/
theorem flush_all_conserves (l : List Nat) :
    ((flush_all l).2.filterMap Action.flushed?).sum + (flush_all l).1.sum = l.sum := by
  induction l with
  | nil => rfl
  | cons n rest ih =>
    simp only [flush_all]
    split_ifs with h
    · simp
    · simp only [List.filterMap_cons, Action.flushed?, List.sum_cons]
      omega

/-- Spans have a size: then the loop leaves no span and reports each one. -/
theorem flush_all_nonzero (l : List Nat) (h : ∀ n ∈ l, n ≠ 0) :
    flush_all l = ([], l.map (fun n => Action.mcreq_flush_done n n)) := by
  induction l with
  | nil => rfl
  | cons n rest ih =>
    have hn : n ≠ 0 := h n (List.mem_cons_self n rest)
    have hr := ih (fun m hm => h m (List.mem_cons_of_mem n hm))
    simp only [flush_all, hn, if_false, hr, List.map_cons]

theorem flush_all_count_connect (l : List Nat) :
    (flush_all l).2.count Action.sockpool_get = 0
    ∧ (flush_all l).2.count Action.lcbio_ctx_close = 0 := by
  constructor
  · apply List.count_eq_zero.mpr
    intro hmem
    obtain ⟨n, hn⟩ := flush_all_calls l _ hmem
    cases hn
  · apply List.count_eq_zero.mpr
    intro hmem
    obtain ⟨n, hn⟩ := flush_all_calls l _ hmem
    cases hn

/-- C22: `Server::finalize_errored_ctx` changes nothing while the transport
handle still has I/O in flight. Once `npending` is 0 it closes the transport
(first call, exactly once) and clears the handle, reports every span not yet
flushed as flushed, after which `mcreq_flush_iov_fill` yields 0, and then: if
the state is Closed the channel is destroyed and no connect request is made;
otherwise the state becomes Clean and exactly one connect request is made, as
the last call. -/
theorem finalize_errored_ctx_cases (srv : Server) (ctx : lcbio_CTX)
    (hctx : srv.connctx = some ctx) :
    (ctx.npending ≠ 0 → finalize_errored_ctx srv = some (srv, []))
    ∧ (ctx.npending = 0 → srv.state = State.S_CLOSED →
        finalize_errored_ctx srv
          = some ({ srv with
                      connctx := none
                      unflushed := (flush_all srv.unflushed).1
                      deleted := true },
                  Action.lcbio_ctx_close :: (flush_all srv.unflushed).2)
        ∧ (Action.lcbio_ctx_close :: (flush_all srv.unflushed).2).count Action.sockpool_get = 0
        ∧ (Action.lcbio_ctx_close :: (flush_all srv.unflushed).2).count Action.lcbio_ctx_close
            = 1)
    ∧ (ctx.npending = 0 → srv.state ≠ State.S_CLOSED →
        finalize_errored_ctx srv
          = some ({ srv with
                      connctx := none
                      unflushed := (flush_all srv.unflushed).1
                      state := State.S_CLEAN
                      connreq := true
                      flush_start := FlushStart.flush_noop },
                  Action.lcbio_ctx_close :: (flush_all srv.unflushed).2
                    ++ [Action.sockpool_get])
        ∧ (Action.lcbio_ctx_close :: (flush_all srv.unflushed).2
            ++ [Action.sockpool_get]).count Action.sockpool_get = 1
        ∧ (Action.lcbio_ctx_close :: (flush_all srv.unflushed).2
            ++ [Action.sockpool_get]).count Action.lcbio_ctx_close = 1)
    ∧ mcreq_flush_iov_fill (flush_all srv.unflushed).1 = 0
    ∧ ((flush_all srv.unflushed).2.filterMap Action.flushed?).sum
        + (flush_all srv.unflushed).1.sum = srv.unflushed.sum
    ∧ (∀ x ∈ (flush_all srv.unflushed).2, ∃ n, x = Action.mcreq_flush_done n n)
    ∧ ((∀ n ∈ srv.unflushed, n ≠ 0) →
        flush_all srv.unflushed
          = ([], srv.unflushed.map (fun n => Action.mcreq_flush_done n n))) := by
  have hc := flush_all_count_connect srv.unflushed
  refine ⟨?_, ?_, ?_, flush_all_drained _, flush_all_conserves _, flush_all_calls _,
    flush_all_nonzero _⟩
  · intro hn
    unfold finalize_errored_ctx
    simp [hctx, hn]
  · intro hn hcl
    refine ⟨?_, ?_, ?_⟩
    · unfold finalize_errored_ctx
      simp [hctx, hn, hcl]
    · rw [List.count_cons, hc.1]; rfl
    · rw [List.count_cons, hc.2]; rfl
  · intro hn hcl
    refine ⟨?_, ?_, ?_⟩
    · unfold finalize_errored_ctx connect
      simp [hctx, hn, hcl]
    · rw [List.cons_append, List.count_cons, List.count_append, hc.1]; rfl
    · rw [List.cons_append, List.count_cons, List.count_append, hc.2]; rfl

/-- Witness of C22: the draining example channel once its transport has nothing
in flight, with two spans of 5 and 3 bytes not yet flushed. -/
theorem finalize_errored_ctx_cases_witness :
    ({ srv_draining with connctx := some ⟨0⟩, unflushed := [5, 3] } : Server).connctx
      = some ⟨0⟩
    ∧ finalize_errored_ctx { srv_draining with connctx := some ⟨0⟩, unflushed := [5, 3] }
      = some ({ srv_draining with
                  connctx := none, unflushed := [], state := State.S_CLEAN,
                  connreq := true, flush_start := FlushStart.flush_noop },
              [Action.lcbio_ctx_close, Action.mcreq_flush_done 5 5,
                Action.mcreq_flush_done 3 3, Action.sockpool_get]) :=
  ⟨rfl,
    ((finalize_errored_ctx_cases
        { srv_draining with connctx := some ⟨0⟩, unflushed := [5, 3] } ⟨0⟩ rfl).2.2.1
      rfl (by decide)).1.trans (by decide)⟩

end mcserver

namespace mcserver

open lcb lcb.lcb_error_t

/-! ## The next timeout -/

theorem next_timeout_nil (env : Env) (srv : Server) (now : Nat) (h : srv.requests = []) :
    next_timeout env srv now = env.default_timeout := by
  unfold next_timeout
  simp [h]

theorem next_timeout_cons (env : Env) (srv : Server) (now : Nat) (pkt : mc_PACKET)
    (rest : List mc_PACKET) (h : srv.requests = pkt :: rest) :
    next_timeout env srv now
      = ((if (pkt.start + env.default_timeout * 1000 % 18446744073709551616)
              % 18446744073709551616 ≤ now then 0
          else (pkt.start + env.default_timeout * 1000 % 18446744073709551616)
              % 18446744073709551616 - now) / 1000) % 4294967296 := by
  unfold next_timeout LCB_US2NS LCB_NS2US
  simp [h]

/-- C23: `Server::next_timeout` returns the default timeout `T` when no request
is pending. Otherwise, with `start` the enqueue time of the oldest pending
request and times in the range of the 64-bit nanosecond clock
(`start + 1000 * T < 2 ^ 64`), it returns 0 when `start + 1000 * T ≤ now` and
`(start + 1000 * T - now) / 1000` as a 32-bit value otherwise, which is that
quotient itself whenever it fits 32 bits, in particular whenever
`start ≤ now`; for `start ≤ now` the result never exceeds `T`. `io_timeout`
rearms the timer with this value, computed after the purge. -/
theorem next_timeout_value (env : Env) (srv : Server) (now : Nat)
    (hT : env.default_timeout < 2 ^ 32) :
    (srv.requests = [] → next_timeout env srv now = env.default_timeout)
    ∧ (∀ pkt rest, srv.requests = pkt :: rest →
        pkt.start + 1000 * env.default_timeout < 2 ^ 64 →
        (pkt.start + 1000 * env.default_timeout ≤ now → next_timeout env srv now = 0)
        ∧ (now < pkt.start + 1000 * env.default_timeout →
            next_timeout env srv now
              = (pkt.start + 1000 * env.default_timeout - now) / 1000 % 2 ^ 32)
        ∧ (now < pkt.start + 1000 * env.default_timeout →
            (pkt.start + 1000 * env.default_timeout - now) / 1000 < 2 ^ 32 →
            next_timeout env srv now
              = (pkt.start + 1000 * env.default_timeout - now) / 1000)
        ∧ (pkt.start ≤ now → now < pkt.start + 1000 * env.default_timeout →
            next_timeout env srv now
              = (pkt.start + 1000 * env.default_timeout - now) / 1000))
    ∧ (∀ pkt rest, srv.requests = pkt :: rest → pkt.start < 2 ^ 64 → pkt.start ≤ now →
        next_timeout env srv now ≤ env.default_timeout)
    ∧ (io_timeout env srv now).2
        = (purge env srv LCB_ETIMEDOUT
              ((now + 2 ^ 64 - LCB_US2NS env.default_timeout) % 2 ^ 64)
              RefreshPolicy.REFRESH_ONFAILED).2.2
          ++ [Action.lcbio_timer_rearm
                (next_timeout env
                  (purge env srv LCB_ETIMEDOUT
                    ((now + 2 ^ 64 - LCB_US2NS env.default_timeout) % 2 ^ 64)
                    RefreshPolicy.REFRESH_ONFAILED).2.1 now),
              Action.lcb_maybe_breakout] := by
  have h32 : (2 : Nat) ^ 32 = 4294967296 := by norm_num
  have h64 : (2 : Nat) ^ 64 = 18446744073709551616 := by norm_num
  rw [h32] at hT
  simp only [h32, h64]
  refine ⟨next_timeout_nil env srv now, ?_, ?_, rfl⟩
  · intro pkt rest hreq hsum
    rw [next_timeout_cons env srv now pkt rest hreq]
    refine ⟨?_, ?_, ?_, ?_⟩
    · intro hle
      split_ifs <;> omega
    · intro hlt
      split_ifs <;> omega
    · intro hlt hq
      split_ifs <;> omega
    · intro hle hlt
      split_ifs <;> omega
  · intro pkt rest hreq hstart hle
    rw [next_timeout_cons env srv now pkt rest hreq]
    split_ifs <;> omega

/-- Witness of C23: the example channel, whose request was enqueued at time 0,
one second later with the timeout of 2.5 seconds: 1.5 seconds remain. -/
theorem next_timeout_value_witness :
    (env_example ⟨false, [], 0⟩).default_timeout < 2 ^ 32
    ∧ next_timeout (env_example ⟨false, [], 0⟩) srv_example 1000000000 = 1500000 :=
  ⟨by decide,
    (((next_timeout_value (env_example ⟨false, [], 0⟩) srv_example 1000000000
        (by decide)).2.1 pkt_example [] rfl (by decide)).2.2.1 (by decide) (by decide)).trans
      (by decide)⟩

end mcserver
